import Mathlib

/-!
Verification of the core pipelines of the `Data-Analysis-Projects` dashboard:
the state risk-scoring pipeline (`streamlit_app/pages/state_risk.py`) and the
health-cost attribution pipeline (`streamlit_app/pages/health_cost_proj.py`).

Modelling conventions (shallow embedding):
* pandas DataFrames are Lean lists of structure rows, in row order;
* Python floats are modelled as exact rationals (ℚ); the derived columns of
  the health-cost projection, where the float power and division can produce
  NaN or an infinity (non-positive `rr_per_10ug`, zero `rr_total`, null
  inputs), are modelled by the float-value carrier `FVal`
  (NaN / ±∞ / finite real) with the libm semantics of `pow` and `/`;
* `Series.str.lower` / `.str.strip` are modelled by structurally recursive
  character-list functions with the same semantics;
* `pd.to_datetime(..., dayfirst=True).dt.year` is modelled by taking the
  calendar fields of an already-parsed date record;
* a pandas groupby with the default `sort=True` produces one row per distinct
  key, keys sorted ascending; aggregation `mean` is sum / count;
* `merge(..., how="inner")` keeps left row order, pairing each left row with
  every matching right row; `merge(..., how="left")` additionally keeps
  unmatched left rows with null (None) right-hand fields;
* missing numeric values (NaN) in joined input columns are modelled as
  `Option` `none`, and as `FVal.nan` in the derived float columns;
* `sklearn.preprocessing.MinMaxScaler.fit_transform` rescales each column by
  `(x - min) / (max - min)`, with a zero range replaced by a divisor of 1
  (sklearn `_handle_zeros_in_scale`), and raises `ValueError` on an input with
  zero rows (`ensure_min_samples=1`); the raise is modelled as `none`.
-/

namespace AQDash

/-! ### String helpers (pandas `Series.str` operations) -/

/-- Model of Python `str.lower` applied by `Series.str.lower()`. -/
def lowerStr (s : String) : String := ⟨s.data.map Char.toLower⟩

/-- Model of Python `str.strip` applied by `Series.str.strip()`:
drop leading and trailing whitespace. -/
def stripStr (s : String) : String :=
  ⟨((s.data.dropWhile Char.isWhitespace).reverse.dropWhile Char.isWhitespace).reverse⟩

/-- Normalized state name: `.str.lower().str.strip()`, the join key used by
both pipelines. -/
def normName (s : String) : String := stripStr (lowerStr s)

/-- Model of Python `str.replace("_", " ")` for the single-character pattern
used on outcome names. -/
def replaceUnderscore (s : String) : String :=
  ⟨s.data.map (fun c => if c = '_' then ' ' else c)⟩

/-- Helper for `titleStr`: `prevAlpha` records whether the previous character
was alphabetic (Python `str.title` word-boundary rule). -/
def titleChars : Bool → List Char → List Char
  | _, [] => []
  | prevAlpha, c :: cs =>
      (if c.isAlpha then (if prevAlpha then c.toLower else c.toUpper) else c)
        :: titleChars c.isAlpha cs

/-- Model of Python `str.title` applied by `Series.str.title()`. -/
def titleStr (s : String) : String := ⟨titleChars false s.data⟩

/-! ### Generic table helpers -/

/-- First-occurrence deduplication with an accumulator of already-seen keys;
`dedupFirst` below models pandas `Series.unique()` (order of first
appearance) and the distinct group keys of a groupby. -/
def dedupFirstAux [DecidableEq α] (seen : List α) : List α → List α
  | [] => []
  | a :: as =>
      if a ∈ seen then dedupFirstAux seen as
      else a :: dedupFirstAux (a :: seen) as

/-- Distinct elements of a list, keeping first occurrences in order. -/
def dedupFirst [DecidableEq α] (l : List α) : List α := dedupFirstAux [] l

/-- Mean of a column, as computed by pandas `mean()`: sum divided by count. -/
def colMean (xs : List ℚ) : ℚ := xs.sum / xs.length

/-- Column minimum (numpy `min` over a nonempty column; 0 for an empty one,
which the pipelines never scale). -/
def listMin : List ℚ → ℚ
  | [] => 0
  | x :: xs => xs.foldl min x

/-- Column maximum (numpy `max`), same conventions as `listMin`. -/
def listMax : List ℚ → ℚ
  | [] => 0
  | x :: xs => xs.foldl max x

/-- One column transform of `sklearn.preprocessing.MinMaxScaler` fitted on
column `xs`: `(x - min) / (max - min)`, where a zero range is replaced by a
divisor of 1 (sklearn `_handle_zeros_in_scale`, which maps a constant column
to the lower feature-range bound 0, not to NaN). -/
def minmaxScale (xs : List ℚ) (x : ℚ) : ℚ :=
  let m := listMin xs
  let M := listMax xs
  let d := if M - m = 0 then 1 else M - m
  (x - m) / d

/-! ### Input row types (column-and-type contracts of the clean CSVs) -/

/-- A parsed calendar date (`pd.to_datetime(..., dayfirst=True)`). -/
structure Date where
  day : Nat
  month : Nat
  year : Int
deriving DecidableEq, Repr

/-- Row of `aqi_clean.csv`: daily AQI reading. -/
structure AqiRow where
  date : Date
  state : String
  area : String
  aqi_value : ℚ
deriving DecidableEq, Repr

/-- Row of `population_clean.csv`. `month` is `none` when the cell is missing
(NaN); the schema-level presence of the `month` column is a separate flag
passed to the population accessor. -/
structure PopRow where
  state : String
  year : Int
  month : Option String
  pop_total : ℚ
deriving DecidableEq, Repr

/-- Row of `mpce_clean.csv` (columns used by `project_mpce_2425`). -/
structure MpceRow where
  state_ut : String
  average_mpce_2023_2024_rural : ℚ
  average_mpce_2023_2024_urban : ℚ
  percentage_increase_rural : ℚ
  percentage_increase_urban : ℚ
deriving DecidableEq, Repr

/-- Row of `health_params_clean.csv`: per-outcome reference parameters. -/
structure HpRow where
  outcome : String
  rr_per_10ug : ℚ
  baseline_incidence : ℚ
  cost_min : ℚ
  cost_mean : ℚ
  cost_max : ℚ
deriving DecidableEq, Repr

/-! ### Risk pipeline, step 2: annualize AQI (`annual_state_aqi_calendar`,
`state_risk.py` lines 31-41) -/

/-- Output row of `annual_state_aqi_calendar`. -/
structure AqiAnnRow where
  state : String
  year : Int
  avg_aqi : ℚ
deriving DecidableEq, Repr

/-- Ordering of groupby keys `(state, year)` (pandas groupby sorts keys
ascending by default). -/
def keyLE (k₁ k₂ : String × Int) : Prop :=
  k₁.1 < k₂.1 ∨ (k₁.1 = k₂.1 ∧ k₁.2 ≤ k₂.2)

instance : DecidableRel keyLE := fun k₁ k₂ => by
  unfold keyLE; infer_instance

/-- Model of `annual_state_aqi_calendar` (`state_risk.py` lines 31-41):
derive the calendar year from the day-first-parsed date, group by
`(state, year)` and take the mean of `aqi_value`.  Note the `state` column is
used verbatim here — this function does NOT lower-case or strip it. -/
def annual_state_aqi_calendar (df_aqi : List AqiRow) : List AqiAnnRow :=
  let keys := dedupFirst (df_aqi.map (fun r => (r.state, r.date.year)))
  let sortedKeys := keys.insertionSort keyLE
  sortedKeys.map (fun k =>
    { state := k.1, year := k.2,
      avg_aqi := colMean ((df_aqi.filter
        (fun r => r.state == k.1 && r.date.year == k.2)).map (·.aqi_value)) })

/-! ### Risk pipeline, step 3: MPCE projection (`project_mpce_2425`,
`state_risk.py` lines 46-60) -/

/-- Output row of `project_mpce_2425` (columns `state`, `mpce_2024_25`). -/
structure MpceProj where
  state : String
  mpce_2024_25 : ℚ
deriving DecidableEq, Repr

/-- Model of `project_mpce_2425` (`state_risk.py` lines 46-60): project each
segment forward by its reported year-over-year percentage increase, then take
the row-wise mean of the two projections (`mean(axis=1)` over two columns is
their half-sum); the join key is the normalized `State/UT` name. -/
def project_mpce_2425 (mpce_df : List MpceRow) : List MpceProj :=
  mpce_df.map (fun r =>
    let proj_rural_2425 :=
      r.average_mpce_2023_2024_rural * (1 + r.percentage_increase_rural / 100)
    let proj_urban_2425 :=
      r.average_mpce_2023_2024_urban * (1 + r.percentage_increase_urban / 100)
    let mpce_2024_25 := (proj_rural_2425 + proj_urban_2425) / 2
    { state := normName r.state_ut, mpce_2024_25 := mpce_2024_25 })

/-- The MPCE step as invoked by `compute_state_risk` (`state_risk.py` line
153): the call site receives `target_year` but passes nothing of it to
`project_mpce_2425`, so the projection is the same for every target year. -/
def risk_mpce_step (mpce_df : List MpceRow) (_target_year : Int) : List MpceProj :=
  project_mpce_2425 mpce_df

/-! ### Risk pipeline, step 4: population (`get_population_by_year`,
`state_risk.py` lines 65-86) -/

/-- Output row of `get_population_by_year` (columns `state`, `population`). -/
structure PopOut where
  state : String
  population : ℚ
deriving DecidableEq, Repr

/-- The fixed month-name-to-number mapping of `get_population_by_year`;
an unknown name maps to `none` (pandas `Series.map` yields NaN). -/
def monthMap (m : String) : Option Nat :=
  if m = "january" then some 1
  else if m = "february" then some 2
  else if m = "march" then some 3
  else if m = "april" then some 4
  else if m = "may" then some 5
  else if m = "june" then some 6
  else if m = "july" then some 7
  else if m = "august" then some 8
  else if m = "september" then some 9
  else if m = "october" then some 10
  else if m = "november" then some 11
  else if m = "december" then some 12
  else none

/-- The `month_num` column: `df["month"].str.lower().map(month_map)`,
`none` both for a missing month cell and for an unmapped name. -/
def monthNum (r : PopRow) : Option Nat := r.month.bind (fun m => monthMap (lowerStr m))

/-- Model of `get_population_by_year` (`state_risk.py` lines 65-86):
normalize state names, filter to the target year; when the table carries a
`month` column (`hasMonth`), keep only the rows of the latest mapped month
(a NaN maximum — no mappable month at all — selects nothing, because pandas
`NaN == NaN` comparisons are false); finally read `pop_total` as
`population`.  The same logic is inlined in `health_cost_proj.py` lines
44-60 after normalizing states up front; `normName` is idempotent so the two
have the same semantics. -/
def get_population_by_year (hasMonth : Bool) (pop_df : List PopRow) (year : Int) :
    List PopOut :=
  let dfn := pop_df.map (fun r => { r with state := normName r.state })
  let df_year := dfn.filter (fun r => r.year == year)
  let df_sel :=
    if hasMonth then
      match (df_year.filterMap monthNum).max? with
      | none => []
      | some m => df_year.filter (fun r => monthNum r == some m)
    else df_year
  df_sel.map (fun r => { state := r.state, population := r.pop_total })

/-! ### Risk pipeline, steps 4-7: join, normalize, score, sort
(`compute_state_risk`, `state_risk.py` lines 132-190) -/

/-- A row of the three-way inner join (line 157-161): AQI columns plus
`population` and `mpce_2024_25`. -/
structure JoinedRow where
  state : String
  year : Int
  avg_aqi : ℚ
  population : ℚ
  mpce_2024_25 : ℚ
deriving DecidableEq, Repr

/-- Model of `aqi_target.merge(pop_target, on="state", how="inner")`
followed by `.merge(mpce_proj, on="state", how="inner")` (lines 157-161):
left row order is kept, each left row pairs with every matching right row.
The join key from the AQI side is the verbatim `state` of
`annual_state_aqi_calendar`; the other two sides carry normalized names. -/
def mergeAll (aqi_target : List AqiAnnRow) (pop_target : List PopOut)
    (mpce_proj : List MpceProj) : List JoinedRow :=
  (aqi_target.flatMap (fun a =>
    (pop_target.filter (fun p => p.state == a.state)).map (fun p => (a, p)))).flatMap
    (fun ap =>
      (mpce_proj.filter (fun m => m.state == ap.1.state)).map (fun m =>
        { state := ap.1.state, year := ap.1.year, avg_aqi := ap.1.avg_aqi,
          population := ap.2.population, mpce_2024_25 := m.mpce_2024_25 }))

/-- A row of the scored risk table: the joined columns plus the three
min-max-normalized columns and the weighted risk score. -/
structure RiskRow where
  state : String
  year : Int
  avg_aqi : ℚ
  population : ℚ
  mpce_2024_25 : ℚ
  aqi_n : ℚ
  pop_n : ℚ
  mpce_n : ℚ
  risk_score : ℚ
deriving DecidableEq, Repr

/-- Model of lines 163-175: min-max normalize the three metric columns over
the joined state set (`MinMaxScaler().fit_transform`), then the weighted-sum
risk score with fixed weights 0.7, 0.2, 0.1 and the expenditure term
inverted. -/
def normalizeRows (rows : List JoinedRow) : List RiskRow :=
  let aqiCol := rows.map (·.avg_aqi)
  let popCol := rows.map (·.population)
  let mpceCol := rows.map (·.mpce_2024_25)
  rows.map (fun r =>
    let aqi_n := minmaxScale aqiCol r.avg_aqi
    let pop_n := minmaxScale popCol r.population
    let mpce_n := minmaxScale mpceCol r.mpce_2024_25
    { state := r.state, year := r.year, avg_aqi := r.avg_aqi,
      population := r.population, mpce_2024_25 := r.mpce_2024_25,
      aqi_n := aqi_n, pop_n := pop_n, mpce_n := mpce_n,
      risk_score := 7/10 * aqi_n + 2/10 * pop_n + 1/10 * (1 - mpce_n) })

/-- Ordering used by `sort_values("risk_score", ascending=False)`. -/
def riskGE (r₁ r₂ : RiskRow) : Prop := r₂.risk_score ≤ r₁.risk_score

instance : DecidableRel riskGE := fun r₁ r₂ => by
  unfold riskGE; infer_instance

/-- The merged driver table of `compute_state_risk` (lines 148-161):
annualized AQI filtered to the target year, inner-joined with the
target-year population and the projected expenditure. -/
def riskJoined (aqi_df : List AqiRow) (pop_df : List PopRow) (hasMonth : Bool)
    (mpce_df : List MpceRow) (target_year : Int) : List JoinedRow :=
  let aqi_ann := annual_state_aqi_calendar aqi_df
  let aqi_target := aqi_ann.filter (fun r => r.year == target_year)
  let mpce_proj := risk_mpce_step mpce_df target_year
  let pop_target := get_population_by_year hasMonth pop_df target_year
  mergeAll aqi_target pop_target mpce_proj

/-- Model of the risk table produced by `compute_state_risk` (lines 144-177):
join the three inputs, normalize, score, sort descending by `risk_score`.
`MinMaxScaler.fit_transform` raises `ValueError` on an empty input
(`ensure_min_samples=1`), modelled as `none`. -/
def risk_table (aqi_df : List AqiRow) (pop_df : List PopRow) (hasMonth : Bool)
    (mpce_df : List MpceRow) (target_year : Int) : Option (List RiskRow) :=
  let df := riskJoined aqi_df pop_df hasMonth mpce_df target_year
  if df.isEmpty then none
  else some ((normalizeRows df).insertionSort riskGE)

/-! ### Risk pipeline, step 8: area extraction (`extract_high_aqi_areas`,
`state_risk.py` lines 91-127) -/

/-- Output row of `extract_high_aqi_areas`. -/
structure AreaRow where
  state : String
  area : String
  avg_aqi : ℚ
deriving DecidableEq, Repr

/-- Ordering used by `sort_values(["state", "avg_aqi"],
ascending=[True, False])`. -/
def areaLE (a₁ a₂ : AreaRow) : Prop :=
  a₁.state < a₂.state ∨ (a₁.state = a₂.state ∧ a₂.avg_aqi ≤ a₁.avg_aqi)

instance : DecidableRel areaLE := fun a₁ a₂ => by
  unfold areaLE; infer_instance

/-- Model of `.groupby("state").head(top_n)`: walk the rows in order keeping
a row only while fewer than `n` rows of its state have been kept already
(`seen` records the states of the rows already walked; `head` keeps original
row order and the first `n` rows of every group). -/
def headPerGroup (n : Nat) (seen : List String) : List AreaRow → List AreaRow
  | [] => []
  | r :: rs =>
      if seen.count r.state < n then r :: headPerGroup n (r.state :: seen) rs
      else headPerGroup n (r.state :: seen) rs

/-- Ordering of groupby keys `(state, area)` (pandas groupby sorts keys
ascending by default). -/
def areaKeyLE (k₁ k₂ : String × String) : Prop :=
  k₁.1 < k₂.1 ∨ (k₁.1 = k₂.1 ∧ k₁.2 ≤ k₂.2)

instance : DecidableRel areaKeyLE := fun k₁ k₂ => by
  unfold areaKeyLE; infer_instance

/-- Model of `extract_high_aqi_areas` (`state_risk.py` lines 91-127):
normalize state and area names, filter to the target year and the given
states, average AQI per (state, area), sort by state ascending then average
AQI descending, and keep the first `top_n` rows of each state. -/
def extract_high_aqi_areas (aqi_df : List AqiRow) (states : List String)
    (year : Int) (top_n : Nat) : List AreaRow :=
  let dfn := aqi_df.map (fun r =>
    { r with state := normName r.state, area := normName r.area })
  let dff := dfn.filter (fun r => r.date.year == year && states.contains r.state)
  let keys := dedupFirst (dff.map (fun r => (r.state, r.area)))
  let sortedKeys := keys.insertionSort areaKeyLE
  let avg_area : List AreaRow := sortedKeys.map (fun k =>
    { state := k.1, area := k.2,
      avg_aqi := colMean ((dff.filter
        (fun r => r.state == k.1 && r.area == k.2)).map (·.aqi_value)) })
  let sorted := avg_area.insertionSort areaLE
  headPerGroup top_n [] sorted

/-- Model of the full `compute_state_risk` (`state_risk.py` lines 132-190):
the risk table, the top areas of the `top_states` highest-risk states, and
the global top areas over all states of the AQI table. -/
def compute_state_risk (aqi_df : List AqiRow) (pop_df : List PopRow)
    (hasMonth : Bool) (mpce_df : List MpceRow) (target_year : Int)
    (top_states : Nat) (top_areas_per_state : Nat) (top_global_areas : Nat) :
    Option (List RiskRow × List AreaRow × List AreaRow) :=
  (risk_table aqi_df pop_df hasMonth mpce_df target_year).map (fun risk_df =>
    let high_states := (risk_df.take top_states).map (·.state)
    let areas_df :=
      extract_high_aqi_areas aqi_df high_states target_year top_areas_per_state
    let all_states := dedupFirst (aqi_df.map (fun r => normName r.state))
    let global_areas_df :=
      extract_high_aqi_areas aqi_df all_states target_year top_global_areas
    (risk_df, areas_df, global_areas_df))

/-! ### Health-cost projection pipeline (`health_cost_proj.py`,
`compute_health_cost_impacts`, lines 28-104) -/

/-- Row of the annualized-AQI-with-delta table (lines 63-69): per-state,
per-year mean AQI and its delta against the counterfactual baseline. -/
structure AqiDeltaRow where
  state : String
  year : Int
  avg_aqi : ℚ
  delta_aqi : ℚ
deriving DecidableEq, Repr

/-- Model of lines 38-41 and 62-69: normalize AQI state names up front (the
health pipeline, unlike the risk pipeline, lower-cases and strips them before
grouping), annualize per (state, year), and attach
`delta_aqi = avg_aqi - cf_aqi`. -/
def health_aqi_ann (aqi_df : List AqiRow) (cf_aqi : ℚ) : List AqiDeltaRow :=
  let dfn := aqi_df.map (fun r => { r with state := normName r.state })
  (annual_state_aqi_calendar dfn).map (fun r =>
    { state := r.state, year := r.year, avg_aqi := r.avg_aqi,
      delta_aqi := r.avg_aqi - cf_aqi })

/-- The distinct states of the cross-product grid (line 72):
`aqi_ann.loc[aqi_ann["year"] == target_year, "state"].unique()`. -/
def healthStates (aqi_df : List AqiRow) (target_year : Int) (cf_aqi : ℚ) :
    List String :=
  dedupFirst (((health_aqi_ann aqi_df cf_aqi).filter
    (fun r => r.year == target_year)).map (·.state))

/-- A row of the joined state × outcome grid before the derived columns:
reference-table fields plus the left-joined `avg_aqi`, `delta_aqi` and
`population` (`none` models the NaN of an unmatched left join). -/
structure ComboRow where
  state : String
  outcome : String
  rr_per_10ug : ℚ
  baseline_incidence : ℚ
  cost_min : ℚ
  cost_mean : ℚ
  cost_max : ℚ
  avg_aqi : Option ℚ
  delta_aqi : Option ℚ
  population : Option ℚ
deriving DecidableEq, Repr

/-- The AQI side of the left join of line 76-81 for one grid state: every
matching right row, or a single null row when there is no match. -/
def leftAqi (aqi_target : List AqiDeltaRow) (s : String) : List (Option AqiDeltaRow) :=
  let aqiMatches := aqi_target.filter (fun a => a.state == s)
  if aqiMatches.isEmpty then [none] else aqiMatches.map some

/-- The population side of the left join of line 82 for one grid state:
every matching right row, or a single null row when there is no match. -/
def leftPop (pop_year : List PopOut) (s : String) : List (Option PopOut) :=
  let popMatches := pop_year.filter (fun p => p.state == s)
  if popMatches.isEmpty then [none] else popMatches.map some

/-- Model of lines 71-83: build the cross product of the target-year states
with the health-parameter rows (`merge(hp_df, how="cross")`, left-major row
order), then left-join the target-year AQI columns and the population by
state: each grid row pairs with every matching right row, and keeps a single
row with null right-hand fields when there is no match. -/
def comboRows (hp_df : List HpRow) (pop_df : List PopRow) (hasMonth : Bool)
    (aqi_df : List AqiRow) (target_year : Int) (cf_aqi : ℚ) : List ComboRow :=
  let aqi_ann := health_aqi_ann aqi_df cf_aqi
  let aqi_target := aqi_ann.filter (fun r => r.year == target_year)
  let pop_year := get_population_by_year hasMonth pop_df target_year
  let states := healthStates aqi_df target_year cf_aqi
  let cross := states.flatMap (fun s => hp_df.map (fun h => (s, h)))
  cross.flatMap (fun sh =>
    (leftAqi aqi_target sh.1).flatMap (fun ao =>
      (leftPop pop_year sh.1).map (fun po =>
        { state := sh.1, outcome := sh.2.outcome,
          rr_per_10ug := sh.2.rr_per_10ug,
          baseline_incidence := sh.2.baseline_incidence,
          cost_min := sh.2.cost_min, cost_mean := sh.2.cost_mean,
          cost_max := sh.2.cost_max,
          avg_aqi := ao.map (·.avg_aqi), delta_aqi := ao.map (·.delta_aqi),
          population := po.map (·.population) })))

/-- A float value under the real-number abstraction: NaN, a signed infinity,
or a finite real.  Pandas nullness (`isna`) is exactly `nan`; the infinities
are numbers, not nulls.  Overflow, underflow and rounding are not modelled,
and the sign of a finite zero is collapsed (a zero reaching a division is
treated as +0, the only way the pipeline produces one). -/
inductive FVal where
  | nan : FVal
  | inf : FVal
  | ninf : FVal
  | fin : ℝ → FVal

/-- Model of the libm `pow` behind the float `**` of line 86, for a rational
base and exponent: a positive base gives the real power; a zero base gives
0, 1 or +∞ according to the sign of the exponent (`pow(0, y<0) = +inf`); a
negative base gives the real integer power when the exponent is integral
(`y.den = 1`) and NaN otherwise (`pow(-2, 0.5) = NaN`). -/
noncomputable def fpow (x y : ℚ) : FVal :=
  if 0 < x then .fin ((x : ℝ) ^ (y : ℝ))
  else if x = 0 then
    (if 0 < y then .fin 0 else if y = 0 then .fin 1 else .inf)
  else if y.den = 1 then .fin ((x : ℝ) ^ y.num)
  else .nan

/-- The exponent `delta_aqi / 10` can itself be null (missing AQI row); libm
`pow` maps a NaN exponent to NaN except for the base 1
(`pow(1, NaN) = 1`). -/
noncomputable def fpowOpt (x : ℚ) (yo : Option ℚ) : FVal :=
  match yo with
  | none => if x = 1 then .fin 1 else .nan
  | some y => fpow x y

/-- Model of the float evaluation of `paf = (rr_total - 1) / rr_total`
(line 87): NaN stays NaN; an infinite `rr_total` gives `∞ / ∞ = NaN`; a zero
`rr_total` gives `-1 / +0 = -∞`; otherwise the real quotient. -/
noncomputable def pafOf : FVal → FVal
  | .nan => .nan
  | .inf => .nan
  | .ninf => .nan
  | .fin t => if t = 0 then .ninf else .fin ((t - 1) / t)

/-- Model of float multiplication by a finite rational column value: NaN is
absorbing; an infinity times zero is NaN, otherwise it keeps or flips its
sign. -/
noncomputable def fmulQ : FVal → ℚ → FVal
  | .nan, _ => .nan
  | .inf, b => if 0 < b then .inf else if b = 0 then .nan else .ninf
  | .ninf, b => if 0 < b then .ninf else if b = 0 then .nan else .inf
  | .fin t, b => .fin (t * (b : ℝ))

/-- Model of float division by the positive constant 100000 of line 89. -/
noncomputable def fdivPos : FVal → ℚ → FVal
  | .nan, _ => .nan
  | .inf, _ => .inf
  | .ninf, _ => .ninf
  | .fin t, c => .fin (t / (c : ℝ))

/-- A row of the final health-cost projection: the display-cased names and
the derived risk/cost columns (lines 86-103).  The derived columns are float
values (`FVal`): a NaN models the nulls that pandas propagates from missing
inputs or from the unvalidated non-positive `rr_per_10ug` path. -/
structure HealthRow where
  state : String
  outcome : String
  rr_per_10ug : ℚ
  baseline_incidence : ℚ
  avg_aqi : Option ℚ
  delta_aqi : Option ℚ
  population : Option ℚ
  rr_total : FVal
  paf : FVal
  attr_rate : FVal
  attr_cases : FVal
  cost_min_total : FVal
  cost_mean_total : FVal
  cost_max_total : FVal
  cost_min_person : ℚ
  cost_mean_person : ℚ
  cost_max_person : ℚ

/-- Model of lines 86-103 applied to one grid row:
`rr_total = rr_per_10ug ** (delta_aqi / 10)` (float power, `fpow`),
`paf = (rr_total - 1) / rr_total` (float division, `pafOf`),
`attr_rate = paf * baseline_incidence`,
`attr_cases = attr_rate * population / 100000` (NaN when `population` is
null), total costs scale `attr_cases` by the per-case cost, per-person costs
carry the unit cost through unchanged, and the display names are
title-cased. -/
noncomputable def enrichRow (r : ComboRow) : HealthRow :=
  let rr_total : FVal :=
    fpowOpt r.rr_per_10ug (r.delta_aqi.map (fun (d : ℚ) => d / 10))
  let paf : FVal := pafOf rr_total
  let attr_rate : FVal := fmulQ paf r.baseline_incidence
  let attr_cases : FVal :=
    match r.population with
    | none => FVal.nan
    | some p => fdivPos (fmulQ attr_rate p) 100000
  { state := titleStr r.state,
    outcome := titleStr (replaceUnderscore r.outcome),
    rr_per_10ug := r.rr_per_10ug, baseline_incidence := r.baseline_incidence,
    avg_aqi := r.avg_aqi, delta_aqi := r.delta_aqi, population := r.population,
    rr_total := rr_total, paf := paf, attr_rate := attr_rate,
    attr_cases := attr_cases,
    cost_min_total := fmulQ attr_cases r.cost_min,
    cost_mean_total := fmulQ attr_cases r.cost_mean,
    cost_max_total := fmulQ attr_cases r.cost_max,
    cost_min_person := r.cost_min, cost_mean_person := r.cost_mean,
    cost_max_person := r.cost_max }

/-- Model of the full `compute_health_cost_impacts` (lines 28-104): the
state × outcome grid with all derived columns. -/
noncomputable def compute_health_cost_impacts (hp_df : List HpRow)
    (pop_df : List PopRow) (hasMonth : Bool) (aqi_df : List AqiRow)
    (target_year : Int) (cf_aqi : ℚ) : List HealthRow :=
  (comboRows hp_df pop_df hasMonth aqi_df target_year cf_aqi).map enrichRow

/-! ### Basic lemmas about the table helpers -/

theorem dedupFirstAux_mem [DecidableEq α] {seen : List α} {l : List α} {x : α} :
    x ∈ dedupFirstAux seen l ↔ x ∈ l ∧ x ∉ seen := by
  induction l generalizing seen with
  | nil => simp [dedupFirstAux]
  | cons a as ih =>
      by_cases ha : a ∈ seen
      · rw [dedupFirstAux, if_pos ha]
        rw [ih]
        constructor
        · rintro ⟨hx, hns⟩
          exact ⟨List.mem_cons_of_mem _ hx, hns⟩
        · rintro ⟨hx, hns⟩
          rcases List.mem_cons.mp hx with rfl | hx
          · exact absurd ha hns
          · exact ⟨hx, hns⟩
      · rw [dedupFirstAux, if_neg ha]
        constructor
        · intro hx
          rcases List.mem_cons.mp hx with rfl | hx
          · exact ⟨List.mem_cons_self _ _, ha⟩
          · rw [ih] at hx
            refine ⟨List.mem_cons_of_mem _ hx.1, fun hs => hx.2 (List.mem_cons_of_mem _ hs)⟩
        · rintro ⟨hx, hns⟩
          rcases List.mem_cons.mp hx with rfl | hx
          · exact List.mem_cons_self _ _
          · by_cases hxa : x = a
            · subst hxa; exact List.mem_cons_self _ _
            · exact List.mem_cons_of_mem _
                (ih.mpr ⟨hx, by simp [List.mem_cons, hxa, hns]⟩)

theorem dedupFirst_mem [DecidableEq α] {l : List α} {x : α} :
    x ∈ dedupFirst l ↔ x ∈ l := by
  rw [dedupFirst, dedupFirstAux_mem]; simp

theorem dedupFirstAux_nodup [DecidableEq α] (seen : List α) (l : List α) :
    (dedupFirstAux seen l).Nodup := by
  induction l generalizing seen with
  | nil => simp [dedupFirstAux]
  | cons a as ih =>
      by_cases ha : a ∈ seen
      · rw [dedupFirstAux, if_pos ha]; exact ih seen
      · rw [dedupFirstAux, if_neg ha]
        refine List.nodup_cons.mpr ⟨?_, ih (a :: seen)⟩
        intro hmem
        exact (dedupFirstAux_mem.mp hmem).2 (List.mem_cons_self _ _)

theorem dedupFirst_nodup [DecidableEq α] (l : List α) : (dedupFirst l).Nodup :=
  dedupFirstAux_nodup [] l

theorem dedupFirstAux_eq_self [DecidableEq α] {l : List α} (h : l.Nodup) :
    ∀ seen, (∀ x ∈ seen, x ∉ l) → dedupFirstAux seen l = l := by
  induction l with
  | nil => intro seen _; rfl
  | cons a as ih =>
      intro seen hseen
      rw [dedupFirstAux, if_neg (fun ha => hseen a ha (List.mem_cons_self _ _))]
      congr 1
      refine ih (List.nodup_cons.mp h).2 (a :: seen) (fun x hx => ?_)
      rcases List.mem_cons.mp hx with rfl | hx
      · exact (List.nodup_cons.mp h).1
      · intro hmem
        exact hseen x hx (List.mem_cons_of_mem _ hmem)

theorem dedupFirst_eq_self_of_nodup [DecidableEq α] {l : List α} (h : l.Nodup) :
    dedupFirst l = l :=
  dedupFirstAux_eq_self h [] (by simp)

theorem foldl_min_le_init (l : List ℚ) (a : ℚ) : l.foldl min a ≤ a := by
  induction l generalizing a with
  | nil => exact le_refl a
  | cons x xs ih => exact le_trans (ih (min a x)) (min_le_left a x)

theorem foldl_min_le_mem {l : List ℚ} {x : ℚ} (h : x ∈ l) (a : ℚ) :
    l.foldl min a ≤ x := by
  induction l generalizing a with
  | nil => cases h
  | cons y ys ih =>
      rcases List.mem_cons.mp h with rfl | h
      · exact le_trans (foldl_min_le_init ys (min a x)) (min_le_right a x)
      · exact ih h (min a y)

theorem listMin_le_mem {xs : List ℚ} {x : ℚ} (h : x ∈ xs) : listMin xs ≤ x := by
  cases xs with
  | nil => cases h
  | cons y ys =>
      rcases List.mem_cons.mp h with rfl | h
      · exact foldl_min_le_init ys x
      · exact foldl_min_le_mem h y

theorem init_le_foldl_max (l : List ℚ) (a : ℚ) : a ≤ l.foldl max a := by
  induction l generalizing a with
  | nil => exact le_refl a
  | cons x xs ih => exact le_trans (le_max_left a x) (ih (max a x))

theorem mem_le_foldl_max {l : List ℚ} {x : ℚ} (h : x ∈ l) (a : ℚ) :
    x ≤ l.foldl max a := by
  induction l generalizing a with
  | nil => cases h
  | cons y ys ih =>
      rcases List.mem_cons.mp h with rfl | h
      · exact le_trans (le_max_right a x) (init_le_foldl_max ys (max a x))
      · exact ih h (max a y)

theorem mem_le_listMax {xs : List ℚ} {x : ℚ} (h : x ∈ xs) : x ≤ listMax xs := by
  cases xs with
  | nil => cases h
  | cons y ys =>
      rcases List.mem_cons.mp h with rfl | h
      · exact init_le_foldl_max ys x
      · exact mem_le_foldl_max h y

/-! ### Lemmas about `minmaxScale` -/

theorem minmaxScale_eq_zero_of_min {xs : List ℚ} {x : ℚ} (h : x = listMin xs) :
    minmaxScale xs x = 0 := by
  rw [minmaxScale, h]; simp

theorem minmaxScale_eq_one_of_max {xs : List ℚ} {x : ℚ}
    (hne : listMin xs ≠ listMax xs) (h : x = listMax xs) :
    minmaxScale xs x = 1 := by
  rw [minmaxScale, h]
  have hd : listMax xs - listMin xs ≠ 0 := sub_ne_zero.mpr (Ne.symm hne)
  rw [if_neg hd]
  exact div_self hd

theorem minmaxScale_eq_zero_of_degenerate {xs : List ℚ} {x : ℚ}
    (hmem : x ∈ xs) (hdeg : listMin xs = listMax xs) :
    minmaxScale xs x = 0 := by
  have h1 := listMin_le_mem hmem
  have h2 := mem_le_listMax hmem
  exact minmaxScale_eq_zero_of_min (le_antisymm (by rw [hdeg]; exact h2) h1)

/-! ### Characterization of `risk_table` -/

theorem risk_table_eq_some {aqi_df : List AqiRow} {pop_df : List PopRow}
    {hasMonth : Bool} {mpce_df : List MpceRow} {target_year : Int}
    {rows : List RiskRow}
    (h : risk_table aqi_df pop_df hasMonth mpce_df target_year = some rows) :
    riskJoined aqi_df pop_df hasMonth mpce_df target_year ≠ [] ∧
      rows = (normalizeRows
        (riskJoined aqi_df pop_df hasMonth mpce_df target_year)).insertionSort riskGE := by
  rw [risk_table] at h
  by_cases he : (riskJoined aqi_df pop_df hasMonth mpce_df target_year).isEmpty
  · rw [if_pos he] at h; cases h
  · rw [if_neg he] at h
    exact ⟨by simpa [List.isEmpty_iff] using he, (Option.some_injective _ h).symm⟩

theorem risk_table_eq_none {aqi_df : List AqiRow} {pop_df : List PopRow}
    {hasMonth : Bool} {mpce_df : List MpceRow} {target_year : Int} :
    risk_table aqi_df pop_df hasMonth mpce_df target_year = none ↔
      riskJoined aqi_df pop_df hasMonth mpce_df target_year = [] := by
  rw [risk_table]
  by_cases he : (riskJoined aqi_df pop_df hasMonth mpce_df target_year).isEmpty
  · rw [if_pos he]; simpa [List.isEmpty_iff] using he
  · rw [if_neg he]; simp [List.isEmpty_iff] at he ⊢; exact he

theorem mem_rows_of_risk_table {aqi_df : List AqiRow} {pop_df : List PopRow}
    {hasMonth : Bool} {mpce_df : List MpceRow} {target_year : Int}
    {rows : List RiskRow} {r : RiskRow}
    (h : risk_table aqi_df pop_df hasMonth mpce_df target_year = some rows) :
    r ∈ rows ↔
      r ∈ normalizeRows (riskJoined aqi_df pop_df hasMonth mpce_df target_year) := by
  obtain ⟨-, rfl⟩ := risk_table_eq_some h
  exact (List.perm_insertionSort riskGE _).mem_iff

/-! ### Claim C1: weighted-sum risk score and its unit range -/

/-- C1. For every joined state row of the risk table, the risk score equals
`0.7 * aqi_n + 0.2 * pop_n + 0.1 * (1 - mpce_n)`, and whenever `aqi_n`,
`pop_n` and `mpce_n` each lie in `[0, 1]` the resulting `risk_score` lies in
`[0, 1]`. -/
theorem risk_score_weighted_sum_and_unit_range
    (aqi_df : List AqiRow) (pop_df : List PopRow) (hasMonth : Bool)
    (mpce_df : List MpceRow) (target_year : Int) (rows : List RiskRow)
    (h : risk_table aqi_df pop_df hasMonth mpce_df target_year = some rows)
    (r : RiskRow) (hr : r ∈ rows) :
    r.risk_score = 7/10 * r.aqi_n + 2/10 * r.pop_n + 1/10 * (1 - r.mpce_n) ∧
    (0 ≤ r.aqi_n ∧ r.aqi_n ≤ 1 → 0 ≤ r.pop_n ∧ r.pop_n ≤ 1 →
     0 ≤ r.mpce_n ∧ r.mpce_n ≤ 1 →
     0 ≤ r.risk_score ∧ r.risk_score ≤ 1) := by
  rw [mem_rows_of_risk_table h, normalizeRows] at hr
  simp only [List.mem_map] at hr
  obtain ⟨j, -, rfl⟩ := hr
  refine ⟨rfl, ?_⟩
  rintro ⟨h1, h2⟩ ⟨h3, h4⟩ ⟨h5, h6⟩
  dsimp only at h1 h2 h3 h4 h5 h6 ⊢
  constructor <;> linarith

/-! Concrete two-state input used by the witnesses: state `a` has the higher
AQI (80 vs 40), the larger population (5000 vs 1000) and the lower projected
expenditure (100 vs 200). -/

/-- Witness AQI table: one reading per state in 2025. -/
def wAqi : List AqiRow := [⟨⟨1, 1, 2025⟩, "a", "x", 80⟩, ⟨⟨2, 1, 2025⟩, "b", "y", 40⟩]

/-- Witness population table (no month column used). -/
def wPop : List PopRow := [⟨"a", 2025, none, 5000⟩, ⟨"b", 2025, none, 1000⟩]

/-- Witness MPCE table with zero growth, so projections equal the bases. -/
def wMpce : List MpceRow := [⟨"a", 100, 100, 0, 0⟩, ⟨"b", 200, 200, 0, 0⟩]

/-- Risk row the pipeline computes for state `a` on the witness input. -/
def wRow1 : RiskRow := ⟨"a", 2025, 80, 5000, 100, 1, 1, 0, 1⟩

/-- Risk row the pipeline computes for state `b` on the witness input. -/
def wRow2 : RiskRow := ⟨"b", 2025, 40, 1000, 200, 0, 0, 1, 0⟩

/-- Evaluation of the joined driver table on the witness input. -/
theorem w_riskJoined_eval :
    riskJoined wAqi wPop false wMpce 2025 =
      [⟨"a", 2025, 80, 5000, 100⟩, ⟨"b", 2025, 40, 1000, 200⟩] := by
  have na : normName "a" = "a" := by decide
  have nb : normName "b" = "b" := by decide
  have l1 : (['a'] < ['b']) := by decide
  have e1 : ("a" == "b") = false := by decide
  have e2 : ("b" == "a") = false := by decide
  have e3 : ("a" == "a") = true := by decide
  have e4 : ("b" == "b") = true := by decide
  norm_num [riskJoined, annual_state_aqi_calendar, wAqi, wPop, wMpce,
    dedupFirst, dedupFirstAux, keyLE, List.insertionSort, List.orderedInsert,
    colMean, risk_mpce_step, project_mpce_2425, na, nb, l1, e1, e2, e3, e4,
    get_population_by_year, mergeAll, List.filter]

/-- Evaluation of the risk pipeline on the witness input. -/
theorem w_risk_table_eval :
    risk_table wAqi wPop false wMpce 2025 = some [wRow1, wRow2] := by
  rw [risk_table, w_riskJoined_eval]
  norm_num [normalizeRows, minmaxScale, listMin, listMax, wRow1, wRow2,
    List.insertionSort, List.orderedInsert, riskGE]

/-- Witness for C1: the conclusion instantiated at the concrete input, with
both hypotheses discharged there. -/
theorem risk_score_weighted_sum_and_unit_range_witness :
    wRow1.risk_score = 7/10 * wRow1.aqi_n + 2/10 * wRow1.pop_n
        + 1/10 * (1 - wRow1.mpce_n) ∧
    (0 ≤ wRow1.aqi_n ∧ wRow1.aqi_n ≤ 1 → 0 ≤ wRow1.pop_n ∧ wRow1.pop_n ≤ 1 →
     0 ≤ wRow1.mpce_n ∧ wRow1.mpce_n ≤ 1 →
     0 ≤ wRow1.risk_score ∧ wRow1.risk_score ≤ 1) :=
  risk_score_weighted_sum_and_unit_range wAqi wPop false wMpce 2025
    [wRow1, wRow2] w_risk_table_eval wRow1 (List.mem_cons_self _ _)

/-! ### Claim C4: min-max normalization endpoints -/

/-- C4. After min-max normalization over the joined state set for the target
year, for each of the columns `avg_aqi`, `population` and `mpce_2024_25`
(assuming the column's min and max differ), the row holding the minimum raw
value normalizes to exactly 0 and the row holding the maximum normalizes to
exactly 1. -/
theorem minmax_normalization_endpoints
    (aqi_df : List AqiRow) (pop_df : List PopRow) (hasMonth : Bool)
    (mpce_df : List MpceRow) (target_year : Int) (rows : List RiskRow)
    (h : risk_table aqi_df pop_df hasMonth mpce_df target_year = some rows)
    (r : RiskRow) (hr : r ∈ rows) :
    (listMin ((riskJoined aqi_df pop_df hasMonth mpce_df target_year).map (·.avg_aqi)) ≠
       listMax ((riskJoined aqi_df pop_df hasMonth mpce_df target_year).map (·.avg_aqi)) →
     (r.avg_aqi = listMin ((riskJoined aqi_df pop_df hasMonth mpce_df target_year).map (·.avg_aqi)) →
        r.aqi_n = 0) ∧
     (r.avg_aqi = listMax ((riskJoined aqi_df pop_df hasMonth mpce_df target_year).map (·.avg_aqi)) →
        r.aqi_n = 1)) ∧
    (listMin ((riskJoined aqi_df pop_df hasMonth mpce_df target_year).map (·.population)) ≠
       listMax ((riskJoined aqi_df pop_df hasMonth mpce_df target_year).map (·.population)) →
     (r.population = listMin ((riskJoined aqi_df pop_df hasMonth mpce_df target_year).map (·.population)) →
        r.pop_n = 0) ∧
     (r.population = listMax ((riskJoined aqi_df pop_df hasMonth mpce_df target_year).map (·.population)) →
        r.pop_n = 1)) ∧
    (listMin ((riskJoined aqi_df pop_df hasMonth mpce_df target_year).map (·.mpce_2024_25)) ≠
       listMax ((riskJoined aqi_df pop_df hasMonth mpce_df target_year).map (·.mpce_2024_25)) →
     (r.mpce_2024_25 = listMin ((riskJoined aqi_df pop_df hasMonth mpce_df target_year).map (·.mpce_2024_25)) →
        r.mpce_n = 0) ∧
     (r.mpce_2024_25 = listMax ((riskJoined aqi_df pop_df hasMonth mpce_df target_year).map (·.mpce_2024_25)) →
        r.mpce_n = 1)) := by
  rw [mem_rows_of_risk_table h, normalizeRows] at hr
  simp only [List.mem_map] at hr
  obtain ⟨j, -, rfl⟩ := hr
  dsimp only
  refine ⟨fun hne => ⟨fun hmin => ?_, fun hmax => ?_⟩,
          fun hne => ⟨fun hmin => ?_, fun hmax => ?_⟩,
          fun hne => ⟨fun hmin => ?_, fun hmax => ?_⟩⟩
  · exact minmaxScale_eq_zero_of_min hmin
  · exact minmaxScale_eq_one_of_max hne hmax
  · exact minmaxScale_eq_zero_of_min hmin
  · exact minmaxScale_eq_one_of_max hne hmax
  · exact minmaxScale_eq_zero_of_min hmin
  · exact minmaxScale_eq_one_of_max hne hmax

/-- Witness for C4: on the concrete input, the state holding the maximum of
every column normalizes to 1 where its value is the maximum and the state
holding the minimum normalizes to 0. -/
theorem minmax_normalization_endpoints_witness :
    wRow1.aqi_n = 1 ∧ wRow2.aqi_n = 0 ∧ wRow1.pop_n = 1 ∧ wRow2.pop_n = 0 ∧
    wRow1.mpce_n = 0 ∧ wRow2.mpce_n = 1 := by
  have hcolA : (riskJoined wAqi wPop false wMpce 2025).map (·.avg_aqi) = [80, 40] := by
    rw [w_riskJoined_eval]; norm_num
  have hcolP : (riskJoined wAqi wPop false wMpce 2025).map (·.population) =
      [5000, 1000] := by
    rw [w_riskJoined_eval]; norm_num
  have hcolM : (riskJoined wAqi wPop false wMpce 2025).map (·.mpce_2024_25) =
      [100, 200] := by
    rw [w_riskJoined_eval]; norm_num
  have t1 := minmax_normalization_endpoints wAqi wPop false wMpce 2025
    [wRow1, wRow2] w_risk_table_eval wRow1 (List.mem_cons_self _ _)
  have t2 := minmax_normalization_endpoints wAqi wPop false wMpce 2025
    [wRow1, wRow2] w_risk_table_eval wRow2
    (List.mem_cons_of_mem _ (List.mem_cons_self _ _))
  rw [hcolA, hcolP, hcolM] at t1 t2
  refine ⟨?_, ?_, ?_, ?_, ?_, ?_⟩
  · exact (t1.1 (by norm_num [listMin, listMax])).2 (by norm_num [wRow1, listMax])
  · exact (t2.1 (by norm_num [listMin, listMax])).1 (by norm_num [wRow2, listMin])
  · exact (t1.2.1 (by norm_num [listMin, listMax])).2 (by norm_num [wRow1, listMax])
  · exact (t2.2.1 (by norm_num [listMin, listMax])).1 (by norm_num [wRow2, listMin])
  · exact (t1.2.2 (by norm_num [listMin, listMax])).1 (by norm_num [wRow1, listMin])
  · exact (t2.2.2 (by norm_num [listMin, listMax])).2 (by norm_num [wRow2, listMax])

/-! ### Membership through the three-way inner join -/

theorem mem_mergeAll_iff {A : List AqiAnnRow} {P : List PopOut}
    {M : List MpceProj} {j : JoinedRow} :
    j ∈ mergeAll A P M ↔ ∃ a ∈ A, ∃ p ∈ P, ∃ m ∈ M,
      p.state = a.state ∧ m.state = a.state ∧
      j = ⟨a.state, a.year, a.avg_aqi, p.population, m.mpce_2024_25⟩ := by
  rw [mergeAll]
  simp only [List.mem_flatMap, List.mem_map, List.mem_filter, beq_iff_eq]
  constructor
  · rintro ⟨ap, ⟨a, ha, p, ⟨hp, hps⟩, rfl⟩, m, ⟨hm, hms⟩, rfl⟩
    exact ⟨a, ha, p, hp, m, hm, hps, hms, rfl⟩
  · rintro ⟨a, ha, p, hp, m, hm, hps, hms, rfl⟩
    exact ⟨(a, p), ⟨a, ha, p, ⟨hp, hps⟩, rfl⟩, m, ⟨hm, hms⟩, rfl⟩

theorem mergeAll_state_exists_iff {A : List AqiAnnRow} {P : List PopOut}
    {M : List MpceProj} {s : String} :
    (∃ j ∈ mergeAll A P M, j.state = s) ↔
      (∃ a ∈ A, a.state = s) ∧ (∃ p ∈ P, p.state = s) ∧
      (∃ m ∈ M, m.state = s) := by
  constructor
  · rintro ⟨j, hj, rfl⟩
    obtain ⟨a, ha, p, hp, m, hm, hps, hms, rfl⟩ := mem_mergeAll_iff.mp hj
    exact ⟨⟨a, ha, rfl⟩, ⟨p, hp, hps⟩, ⟨m, hm, hms⟩⟩
  · rintro ⟨⟨a, ha, rfl⟩, ⟨p, hp, hps⟩, ⟨m, hm, hms⟩⟩
    exact ⟨⟨a.state, a.year, a.avg_aqi, p.population, m.mpce_2024_25⟩,
      mem_mergeAll_iff.mpr ⟨a, ha, p, hp, m, hm, hps, hms, rfl⟩, rfl⟩

theorem mergeAll_eq_nil_iff {A : List AqiAnnRow} {P : List PopOut}
    {M : List MpceProj} :
    mergeAll A P M = [] ↔
      ¬ ∃ s, (∃ a ∈ A, a.state = s) ∧ (∃ p ∈ P, p.state = s) ∧
        (∃ m ∈ M, m.state = s) := by
  rw [List.eq_nil_iff_forall_not_mem]
  constructor
  · rintro h ⟨s, hs⟩
    obtain ⟨j, hj, -⟩ := mergeAll_state_exists_iff.mpr hs
    exact h j hj
  · intro h j hj
    exact h ⟨j.state, mergeAll_state_exists_iff.mp ⟨j, hj, rfl⟩⟩

theorem normalizeRows_state_exists_iff {df : List JoinedRow} {s : String} :
    (∃ r ∈ normalizeRows df, r.state = s) ↔ ∃ j ∈ df, j.state = s := by
  rw [normalizeRows]
  simp only [List.mem_map]
  constructor
  · rintro ⟨r, ⟨j, hj, rfl⟩, rfl⟩
    exact ⟨j, hj, rfl⟩
  · rintro ⟨j, hj, rfl⟩
    exact ⟨_, ⟨j, hj, rfl⟩, rfl⟩

/-! ### Claim C9 (amended): degenerate min-max ranges normalize to 0,
not NaN -/

/-- C9 (amended). When all joined states carry an identical raw value in one
of the normalized columns, the risk pipeline does not raise: provided the
join itself is nonempty it still returns a table, and the degenerate column
normalizes to the rational 0 for every state (sklearn's MinMaxScaler replaces
a zero range by a divisor of 1), so the output stays numeric — it does not
propagate NaN/undefined values. -/
theorem degenerate_minmax_normalizes_to_zero
    (aqi_df : List AqiRow) (pop_df : List PopRow) (hasMonth : Bool)
    (mpce_df : List MpceRow) (target_year : Int)
    (hne : riskJoined aqi_df pop_df hasMonth mpce_df target_year ≠ []) :
    ∃ rows, risk_table aqi_df pop_df hasMonth mpce_df target_year = some rows ∧
      ∀ r ∈ rows,
        (listMin ((riskJoined aqi_df pop_df hasMonth mpce_df target_year).map (·.avg_aqi)) =
           listMax ((riskJoined aqi_df pop_df hasMonth mpce_df target_year).map (·.avg_aqi)) →
           r.aqi_n = 0) ∧
        (listMin ((riskJoined aqi_df pop_df hasMonth mpce_df target_year).map (·.population)) =
           listMax ((riskJoined aqi_df pop_df hasMonth mpce_df target_year).map (·.population)) →
           r.pop_n = 0) ∧
        (listMin ((riskJoined aqi_df pop_df hasMonth mpce_df target_year).map (·.mpce_2024_25)) =
           listMax ((riskJoined aqi_df pop_df hasMonth mpce_df target_year).map (·.mpce_2024_25)) →
           r.mpce_n = 0) := by
  have hsome : risk_table aqi_df pop_df hasMonth mpce_df target_year =
      some ((normalizeRows
        (riskJoined aqi_df pop_df hasMonth mpce_df target_year)).insertionSort riskGE) := by
    rw [risk_table, if_neg (by simpa [List.isEmpty_iff] using hne)]
  refine ⟨_, hsome, fun r hr => ?_⟩
  rw [(List.perm_insertionSort riskGE _).mem_iff, normalizeRows] at hr
  simp only [List.mem_map] at hr
  obtain ⟨j, hj, rfl⟩ := hr
  dsimp only
  exact ⟨fun hdeg => minmaxScale_eq_zero_of_degenerate
            (List.mem_map_of_mem _ hj) hdeg,
         fun hdeg => minmaxScale_eq_zero_of_degenerate
            (List.mem_map_of_mem _ hj) hdeg,
         fun hdeg => minmaxScale_eq_zero_of_degenerate
            (List.mem_map_of_mem _ hj) hdeg⟩

/-- Population table for the degenerate input: both states hold the
identical population 1000, so the population column has a zero range. -/
def c9Pop : List PopRow := [⟨"a", 2025, none, 1000⟩, ⟨"b", 2025, none, 1000⟩]

/-- Evaluation of the joined driver table on the degenerate input. -/
theorem c9_riskJoined_eval :
    riskJoined wAqi c9Pop false wMpce 2025 =
      [⟨"a", 2025, 80, 1000, 100⟩, ⟨"b", 2025, 40, 1000, 200⟩] := by
  have na : normName "a" = "a" := by decide
  have nb : normName "b" = "b" := by decide
  have l1 : (['a'] < ['b']) := by decide
  have e1 : ("a" == "b") = false := by decide
  have e2 : ("b" == "a") = false := by decide
  have e3 : ("a" == "a") = true := by decide
  have e4 : ("b" == "b") = true := by decide
  norm_num [riskJoined, annual_state_aqi_calendar, wAqi, c9Pop, wMpce,
    dedupFirst, dedupFirstAux, keyLE, List.insertionSort, List.orderedInsert,
    colMean, risk_mpce_step, project_mpce_2425, na, nb, l1, e1, e2, e3, e4,
    get_population_by_year, mergeAll, List.filter]

/-- Counterexample to C9 as stated.  On an input where every joined state has
the identical population (a degenerate min-max range for the `population`
column), the pipeline returns a fully defined table of rationals: `pop_n` is
the number 0 in every row and `risk_score` is a number, so the degenerate
column does NOT propagate as non-numeric (NaN/undefined) output values.  The
claim's no-raise half is true, its NaN half is false. -/
theorem degenerate_minmax_counterexample :
    risk_table wAqi c9Pop false wMpce 2025 =
      some [⟨"a", 2025, 80, 1000, 100, 1, 0, 0, 4/5⟩,
            ⟨"b", 2025, 40, 1000, 200, 0, 0, 1, 0⟩] ∧
    listMin ((riskJoined wAqi c9Pop false wMpce 2025).map (·.population)) =
      listMax ((riskJoined wAqi c9Pop false wMpce 2025).map (·.population)) := by
  constructor
  · rw [risk_table, c9_riskJoined_eval]
    norm_num [normalizeRows, minmaxScale, listMin, listMax,
      List.insertionSort, List.orderedInsert, riskGE]
  · rw [c9_riskJoined_eval]
    norm_num [listMin, listMax]

/-- Witness for the amended C9 at the degenerate input: the hypothesis (a
nonempty join) is discharged by evaluation. -/
theorem degenerate_minmax_normalizes_to_zero_witness :
    ∃ rows, risk_table wAqi c9Pop false wMpce 2025 = some rows ∧
      ∀ r ∈ rows,
        (listMin ((riskJoined wAqi c9Pop false wMpce 2025).map (·.avg_aqi)) =
           listMax ((riskJoined wAqi c9Pop false wMpce 2025).map (·.avg_aqi)) →
           r.aqi_n = 0) ∧
        (listMin ((riskJoined wAqi c9Pop false wMpce 2025).map (·.population)) =
           listMax ((riskJoined wAqi c9Pop false wMpce 2025).map (·.population)) →
           r.pop_n = 0) ∧
        (listMin ((riskJoined wAqi c9Pop false wMpce 2025).map (·.mpce_2024_25)) =
           listMax ((riskJoined wAqi c9Pop false wMpce 2025).map (·.mpce_2024_25)) →
           r.mpce_n = 0) :=
  degenerate_minmax_normalizes_to_zero wAqi c9Pop false wMpce 2025
    (by rw [c9_riskJoined_eval]; simp)

/-! ### Claim C3 (amended): join membership and the empty-join error -/

/-- C3 (amended). The risk pipeline joins on the `state` column where only
the population and expenditure names are lower-cased and trimmed — the
annualized-AQI names are used verbatim.  A state appears in the risk table
iff its verbatim annualized name for the target year also occurs as a
(normalized) name in both the population selection and the projected
expenditure (inner join).  When no state satisfies all three, the pipeline
raises — `MinMaxScaler` rejects the resulting empty input — rather than
returning an empty table. -/
theorem risk_join_membership_and_empty_raises
    (aqi_df : List AqiRow) (pop_df : List PopRow) (hasMonth : Bool)
    (mpce_df : List MpceRow) (target_year : Int) :
    (risk_table aqi_df pop_df hasMonth mpce_df target_year = none ↔
      ¬ ∃ s, (∃ a ∈ (annual_state_aqi_calendar aqi_df).filter
                (fun r => r.year == target_year), a.state = s) ∧
             (∃ p ∈ get_population_by_year hasMonth pop_df target_year,
                p.state = s) ∧
             (∃ m ∈ project_mpce_2425 mpce_df, m.state = s)) ∧
    (∀ rows, risk_table aqi_df pop_df hasMonth mpce_df target_year = some rows →
      ∀ s, (∃ r ∈ rows, r.state = s) ↔
        ((∃ a ∈ (annual_state_aqi_calendar aqi_df).filter
            (fun r => r.year == target_year), a.state = s) ∧
         (∃ p ∈ get_population_by_year hasMonth pop_df target_year,
            p.state = s) ∧
         (∃ m ∈ project_mpce_2425 mpce_df, m.state = s))) := by
  have hJ : riskJoined aqi_df pop_df hasMonth mpce_df target_year =
      mergeAll ((annual_state_aqi_calendar aqi_df).filter
          (fun r => r.year == target_year))
        (get_population_by_year hasMonth pop_df target_year)
        (project_mpce_2425 mpce_df) := rfl
  constructor
  · rw [risk_table_eq_none, hJ, mergeAll_eq_nil_iff]
  · intro rows hrows s
    have hmem : ∀ r : RiskRow, r ∈ rows ↔
        r ∈ normalizeRows (riskJoined aqi_df pop_df hasMonth mpce_df target_year) :=
      fun r => mem_rows_of_risk_table hrows
    constructor
    · rintro ⟨r, hr, rfl⟩
      have : ∃ j ∈ riskJoined aqi_df pop_df hasMonth mpce_df target_year,
          j.state = r.state :=
        normalizeRows_state_exists_iff.mp ⟨r, (hmem r).mp hr, rfl⟩
      rw [hJ] at this
      exact mergeAll_state_exists_iff.mp this
    · intro hs
      have hjm := mergeAll_state_exists_iff.mpr hs
      rw [← hJ] at hjm
      obtain ⟨r, hr, hrs⟩ := normalizeRows_state_exists_iff.mpr hjm
      exact ⟨r, (hmem r).mpr hr, hrs⟩

/-- AQI table for the counterexample: the raw state name is `"Delhi"`
(not lower-cased). -/
def cAqi : List AqiRow := [⟨⟨1, 1, 2025⟩, "Delhi", "x", 100⟩]

/-- Population table for the counterexample, same raw name. -/
def cPop : List PopRow := [⟨"Delhi", 2025, none, 1000⟩]

/-- Expenditure table for the counterexample, same raw name. -/
def cMpce : List MpceRow := [⟨"Delhi", 100, 100, 0, 0⟩]

/-- Counterexample to C3 as stated.  The state `"Delhi"` has all three
inputs — its normalized name `"delhi"` occurs in the annualized AQI (after
normalization), in the population selection and in the projected
expenditure — yet the pipeline does not produce a risk row for it: the AQI
side joins on the verbatim name `"Delhi"`, no rows survive the inner join,
and the empty join makes the pipeline raise (`none`) instead of returning an
empty table. -/
theorem risk_join_counterexample :
    risk_table cAqi cPop false cMpce 2025 = none ∧
    (∃ a ∈ (annual_state_aqi_calendar cAqi).filter (fun r => r.year == 2025),
       normName a.state = "delhi") ∧
    (∃ p ∈ get_population_by_year false cPop 2025, p.state = "delhi") ∧
    (∃ m ∈ project_mpce_2425 cMpce, m.state = "delhi") := by
  have nd : normName "Delhi" = "delhi" := by decide
  have ha : annual_state_aqi_calendar cAqi = [⟨"Delhi", 2025, 100⟩] := by
    norm_num [annual_state_aqi_calendar, cAqi, dedupFirst, dedupFirstAux,
      List.insertionSort, List.orderedInsert, colMean, List.filter]
  have hp : get_population_by_year false cPop 2025 = [⟨"delhi", 1000⟩] := by
    norm_num [get_population_by_year, cPop, nd, List.filter]
  have hm : project_mpce_2425 cMpce = [⟨"delhi", 100⟩] := by
    norm_num [project_mpce_2425, cMpce, nd]
  refine ⟨?_, ?_, ?_, ?_⟩
  · rw [risk_table_eq_none]
    have : riskJoined cAqi cPop false cMpce 2025 =
        mergeAll ((annual_state_aqi_calendar cAqi).filter (fun r => r.year == 2025))
          (get_population_by_year false cPop 2025) (project_mpce_2425 cMpce) := rfl
    rw [this, ha, hp, hm]
    have e1 : ("delhi" == "Delhi") = false := by decide
    norm_num [mergeAll, List.filter, e1]
  · rw [ha]
    exact ⟨⟨"Delhi", 2025, 100⟩, by norm_num [List.filter], nd⟩
  · rw [hp]
    exact ⟨⟨"delhi", 1000⟩, by simp, rfl⟩
  · rw [hm]
    exact ⟨⟨"delhi", 100⟩, by simp, rfl⟩

/-- Witness for the amended C3 on the two-state input: state `"a"` has all
three inputs and indeed appears in the computed risk table. -/
theorem risk_join_membership_witness :
    ∃ r ∈ [wRow1, wRow2], r.state = "a" := by
  have na : normName "a" = "a" := by decide
  have h := (risk_join_membership_and_empty_raises wAqi wPop false wMpce 2025).2
    [wRow1, wRow2] w_risk_table_eval "a"
  refine h.mpr ⟨?_, ?_, ?_⟩
  · refine ⟨⟨"a", 2025, 80⟩, ?_, rfl⟩
    have ha : annual_state_aqi_calendar wAqi = [⟨"a", 2025, 80⟩, ⟨"b", 2025, 40⟩] := by
      have l1 : (['a'] < ['b']) := by decide
      have e1 : ("a" == "b") = false := by decide
      have e2 : ("b" == "a") = false := by decide
      norm_num [annual_state_aqi_calendar, wAqi, dedupFirst, dedupFirstAux,
        keyLE, List.insertionSort, List.orderedInsert, colMean, l1, e1, e2,
        List.filter]
    rw [ha]
    norm_num [List.filter]
  · refine ⟨⟨"a", 5000⟩, ?_, rfl⟩
    have hp : get_population_by_year false wPop 2025 = [⟨"a", 5000⟩, ⟨"b", 1000⟩] := by
      have nb : normName "b" = "b" := by decide
      norm_num [get_population_by_year, wPop, na, nb, List.filter]
    rw [hp]; simp
  · refine ⟨⟨"a", 100⟩, ?_, rfl⟩
    have hm : project_mpce_2425 wMpce = [⟨"a", 100⟩, ⟨"b", 200⟩] := by
      have nb : normName "b" = "b" := by decide
      norm_num [project_mpce_2425, wMpce, na, nb]
    rw [hm]; simp

/-! ### Claim C7: fixed MPCE projection formula, independent of target year -/

/-- C7. For every state row of the expenditure table, the projected
expenditure is `base_2023_24 * (1 + pct_increase / 100)` computed separately
for the rural and urban segments, the final value being the arithmetic mean
of the two projections; and the projection step of the risk pipeline ignores
its target year entirely, so the projected table is the same for every
requested target year. -/
theorem mpce_projection_formula_and_year_independence
    (mpce_df : List MpceRow) (y₁ y₂ : Int) :
    risk_mpce_step mpce_df y₁ = risk_mpce_step mpce_df y₂ ∧
    ∀ q ∈ project_mpce_2425 mpce_df, ∃ r ∈ mpce_df,
      q.mpce_2024_25 =
        (r.average_mpce_2023_2024_rural * (1 + r.percentage_increase_rural / 100) +
         r.average_mpce_2023_2024_urban * (1 + r.percentage_increase_urban / 100)) / 2 := by
  refine ⟨rfl, ?_⟩
  intro q hq
  rw [project_mpce_2425] at hq
  simp only [List.mem_map] at hq
  obtain ⟨r, hr, rfl⟩ := hq
  exact ⟨r, hr, rfl⟩

/-- Witness for C7 at the concrete expenditure table: the projection for
state `a` is `(100 * (1 + 0/100) + 100 * (1 + 0/100)) / 2 = 100`, and two
different target years give the same projection table. -/
theorem mpce_projection_formula_witness :
    risk_mpce_step wMpce 2025 = risk_mpce_step wMpce 2031 ∧
    ∃ r ∈ wMpce, (MpceProj.mk "a" 100).mpce_2024_25 =
      (r.average_mpce_2023_2024_rural * (1 + r.percentage_increase_rural / 100) +
       r.average_mpce_2023_2024_urban * (1 + r.percentage_increase_urban / 100)) / 2 := by
  obtain ⟨h1, h2⟩ := mpce_projection_formula_and_year_independence wMpce 2025 2031
  refine ⟨h1, h2 ⟨"a", 100⟩ ?_⟩
  have na : normName "a" = "a" := by decide
  have nb : normName "b" = "b" := by decide
  have hm : project_mpce_2425 wMpce = [⟨"a", 100⟩, ⟨"b", 200⟩] := by
    norm_num [project_mpce_2425, wMpce, na, nb]
  rw [hm]
  simp

/-! ### Claim C6: area extraction caps rows per state and sorts by AQI -/

instance : IsTotal AreaRow areaLE :=
  ⟨fun a b => by
    rcases lt_trichotomy a.state b.state with h | h | h
    · exact Or.inl (Or.inl h)
    · rcases le_total b.avg_aqi a.avg_aqi with hq | hq
      · exact Or.inl (Or.inr ⟨h, hq⟩)
      · exact Or.inr (Or.inr ⟨h.symm, hq⟩)
    · exact Or.inr (Or.inl h)⟩

instance : IsTrans AreaRow areaLE :=
  ⟨fun a b c hab hbc => by
    rcases hab with h1 | ⟨h1, q1⟩
    · rcases hbc with h2 | ⟨h2, q2⟩
      · exact Or.inl (lt_trans h1 h2)
      · exact Or.inl (h2 ▸ h1)
    · rcases hbc with h2 | ⟨h2, q2⟩
      · exact Or.inl (h1 ▸ h2)
      · exact Or.inr ⟨h1.trans h2, q2.trans q1⟩⟩

theorem headPerGroup_sublist (n : Nat) (seen : List String) (l : List AreaRow) :
    (headPerGroup n seen l).Sublist l := by
  induction l generalizing seen with
  | nil => simp [headPerGroup]
  | cons r rs ih =>
      rw [headPerGroup]
      by_cases hc : seen.count r.state < n
      · rw [if_pos hc]; exact (ih (r.state :: seen)).cons₂ r
      · rw [if_neg hc]; exact (ih (r.state :: seen)).cons r

theorem headPerGroup_countP_le (n : Nat) (s : String) :
    ∀ (l : List AreaRow) (seen : List String),
      (headPerGroup n seen l).countP (fun r => r.state == s) ≤ n - seen.count s := by
  intro l
  induction l with
  | nil => intro seen; simp [headPerGroup]
  | cons r rs ih =>
      intro seen
      rw [headPerGroup]
      by_cases hc : seen.count r.state < n
      · rw [if_pos hc, List.countP_cons]
        by_cases hs : r.state = s
        · subst hs
          have h2 := ih (r.state :: seen)
          have hcnt : (r.state :: seen).count r.state = seen.count r.state + 1 := by
            simp [List.count_cons]
          rw [hcnt] at h2
          have hT : (r.state == r.state) = true := by simp
          rw [hT, if_pos rfl]
          omega
        · have h2 := ih (r.state :: seen)
          have hcnt : (r.state :: seen).count s = seen.count s := by
            simp [List.count_cons, hs]
          rw [hcnt] at h2
          have hF : (r.state == s) = false := by simp [hs]
          rw [hF, if_neg (by simp)]
          omega
      · rw [if_neg hc]
        by_cases hs : r.state = s
        · subst hs
          have h2 := ih (r.state :: seen)
          have hcnt : (r.state :: seen).count r.state = seen.count r.state + 1 := by
            simp [List.count_cons]
          rw [hcnt] at h2
          have hge : n ≤ seen.count r.state := Nat.le_of_not_lt hc
          omega
        · have h2 := ih (r.state :: seen)
          have hcnt : (r.state :: seen).count s = seen.count s := by
            simp [List.count_cons, hs]
          rw [hcnt] at h2
          exact h2

/-- C6. For every input AQI table, state list, year and `top_n`, area
extraction returns at most `top_n` rows per state, and any two returned rows
of the same state appear in non-increasing order of `avg_aqi` (sorted by
average AQI descending within each state). -/
theorem area_extraction_cap_and_descending
    (aqi_df : List AqiRow) (states : List String) (year : Int) (top_n : Nat) :
    (∀ s, (extract_high_aqi_areas aqi_df states year top_n).countP
        (fun r => r.state == s) ≤ top_n) ∧
    (extract_high_aqi_areas aqi_df states year top_n).Pairwise
      (fun a b => a.state = b.state → b.avg_aqi ≤ a.avg_aqi) := by
  rw [extract_high_aqi_areas]
  constructor
  · intro s
    exact le_trans (headPerGroup_countP_le top_n s _ []) (by simp)
  · refine List.Pairwise.sublist (headPerGroup_sublist top_n [] _) ?_
    refine List.Pairwise.imp (fun {a b} hab => ?_)
      (List.sorted_insertionSort areaLE _)
    intro heq
    rcases hab with h | ⟨-, h⟩
    · exact absurd (heq ▸ h) (lt_irrefl _)
    · exact h

/-- Witness for C6 at the concrete input: the extraction returns the two
state-area rows, with one row per state (within the cap of 1). -/
theorem area_extraction_witness :
    extract_high_aqi_areas wAqi ["a", "b"] 2025 1 =
      [⟨"a", "x", 80⟩, ⟨"b", "y", 40⟩] ∧
    (∀ s, (extract_high_aqi_areas wAqi ["a", "b"] 2025 1).countP
        (fun r => r.state == s) ≤ 1) := by
  constructor
  · have na : normName "a" = "a" := by decide
    have nb : normName "b" = "b" := by decide
    have nx : normName "x" = "x" := by decide
    have ny : normName "y" = "y" := by decide
    have l1 : (['a'] < ['b']) := by decide
    have hnab : ¬ (['b'] < ['a']) := by decide
    have e1 : ("a" == "b") = false := by decide
    have e2 : ("b" == "a") = false := by decide
    have e3 : ("a" == "a") = true := by decide
    have e4 : ("b" == "b") = true := by decide
    have e5 : ("x" == "y") = false := by decide
    have e6 : ("y" == "x") = false := by decide
    have e7 : ("x" == "x") = true := by decide
    have e8 : ("y" == "y") = true := by decide
    have hne : ("a" : String) ≠ "b" := by decide
    norm_num [extract_high_aqi_areas, wAqi, dedupFirst, dedupFirstAux,
      areaKeyLE, areaLE, List.insertionSort, List.orderedInsert, colMean,
      headPerGroup, na, nb, nx, ny, l1, hnab, hne,
      e1, e2, e3, e4, e5, e6, e7, e8, List.filter,
      List.count_cons, List.count_nil]
  · exact (area_extraction_cap_and_descending wAqi ["a", "b"] 2025 1).1

/-! ### Counting lemmas for the health cross product -/

theorem length_flatMap_const {α β : Type} (l : List α) (f : α → List β) (c : Nat)
    (h : ∀ x ∈ l, (f x).length = c) : (l.flatMap f).length = l.length * c := by
  induction l with
  | nil => simp
  | cons a as ih =>
      rw [List.flatMap_cons, List.length_append, h a (List.mem_cons_self _ _),
        ih (fun x hx => h x (List.mem_cons_of_mem _ hx)), List.length_cons,
        Nat.succ_mul]
      exact Nat.add_comm _ _

theorem length_filter_le_one_of_nodup {α : Type} (key : α → String) {l : List α}
    (hnd : (l.map key).Nodup) (s : String) :
    (l.filter (fun x => key x == s)).length ≤ 1 := by
  induction l with
  | nil => simp
  | cons a as ih =>
      rw [List.map_cons, List.nodup_cons] at hnd
      rw [List.filter_cons]
      by_cases h : key a = s
      · rw [if_pos (by simp [h])]
        have hnil : as.filter (fun x => key x == s) = [] := by
          rw [List.filter_eq_nil_iff]
          intro x hx hkey
          rw [beq_iff_eq] at hkey
          exact hnd.1 (h ▸ hkey ▸ List.mem_map_of_mem key hx)
        simp [hnil]
      · rw [if_neg (by simp [h])]
        exact ih hnd.2

theorem length_filter_eq_one_of_mem {α : Type} (key : α → String) {l : List α}
    (hnd : (l.map key).Nodup) {s : String} (hex : ∃ x ∈ l, key x = s) :
    (l.filter (fun x => key x == s)).length = 1 := by
  have hle := length_filter_le_one_of_nodup key hnd s
  obtain ⟨x, hx, hkey⟩ := hex
  have hmem : x ∈ l.filter (fun x => key x == s) :=
    List.mem_filter.mpr ⟨hx, by simp [hkey]⟩
  have hpos := List.length_pos_of_mem hmem
  omega

/-! ### Distinctness of the groupby keys -/

theorem annual_pairs_nodup (df : List AqiRow) :
    ((annual_state_aqi_calendar df).map (fun r => (r.state, r.year))).Nodup := by
  rw [annual_state_aqi_calendar, List.map_map]
  refine List.Nodup.map_on (fun x hx y hy h => ?_)
    (((List.perm_insertionSort keyLE _).nodup_iff).mpr (dedupFirst_nodup _))
  simpa [Prod.ext_iff] using h

theorem health_pairs_nodup (aqi_df : List AqiRow) (cf_aqi : ℚ) :
    ((health_aqi_ann aqi_df cf_aqi).map (fun r => (r.state, r.year))).Nodup := by
  rw [health_aqi_ann, List.map_map]
  exact annual_pairs_nodup _

theorem health_target_states_nodup (aqi_df : List AqiRow) (cf_aqi : ℚ)
    (target_year : Int) :
    (((health_aqi_ann aqi_df cf_aqi).filter
      (fun r => r.year == target_year)).map (·.state)).Nodup := by
  have hpairs := health_pairs_nodup aqi_df cf_aqi
  have hsub : (((health_aqi_ann aqi_df cf_aqi).filter
        (fun r => r.year == target_year)).map (fun r => (r.state, r.year))).Sublist
      ((health_aqi_ann aqi_df cf_aqi).map (fun r => (r.state, r.year))) :=
    (List.filter_sublist _).map _
  have hfp := hsub.nodup hpairs
  refine List.Nodup.map_on (fun x hx y hy h => ?_) (List.Nodup.of_map _ hfp)
  have hxy : x.year = target_year := by
    have := (List.mem_filter.mp hx).2
    simpa using this
  have hyy : y.year = target_year := by
    have := (List.mem_filter.mp hy).2
    simpa using this
  exact List.inj_on_of_nodup_map hfp hx hy (by rw [Prod.ext_iff]; exact ⟨h, hxy.trans hyy.symm⟩)

/-! ### Membership characterizations for the health pipeline -/

theorem mem_annual_iff {df : List AqiRow} {s : String} {y : Int} :
    (∃ a ∈ annual_state_aqi_calendar df, a.state = s ∧ a.year = y) ↔
      ∃ r ∈ df, r.state = s ∧ r.date.year = y := by
  rw [annual_state_aqi_calendar]
  simp only [List.mem_map]
  constructor
  · rintro ⟨a, ⟨k, hk, rfl⟩, hs, hy⟩
    rw [(List.perm_insertionSort keyLE _).mem_iff, dedupFirst_mem,
      List.mem_map] at hk
    obtain ⟨r, hr, hkr⟩ := hk
    refine ⟨r, hr, ?_, ?_⟩
    · have : k.1 = s := hs
      rw [← this, ← hkr]
    · have : k.2 = y := hy
      rw [← this, ← hkr]
  · rintro ⟨r, hr, rfl, rfl⟩
    refine ⟨_, ⟨(r.state, r.date.year), ?_, rfl⟩, rfl, rfl⟩
    rw [(List.perm_insertionSort keyLE _).mem_iff, dedupFirst_mem]
    exact List.mem_map_of_mem _ hr

theorem mem_health_aqi_ann_iff {aqi_df : List AqiRow} {cf_aqi : ℚ}
    {s : String} {y : Int} :
    (∃ a ∈ health_aqi_ann aqi_df cf_aqi, a.state = s ∧ a.year = y) ↔
      ∃ r ∈ aqi_df, normName r.state = s ∧ r.date.year = y := by
  rw [health_aqi_ann]
  simp only [List.mem_map]
  constructor
  · rintro ⟨x, ⟨a, ha, rfl⟩, hs, hy⟩
    obtain ⟨rn, hrn, h1, h2⟩ :=
      (@mem_annual_iff (aqi_df.map (fun r => { r with state := normName r.state }))
        s y).mp ⟨a, ha, hs, hy⟩
    rw [List.mem_map] at hrn
    obtain ⟨r, hr, rfl⟩ := hrn
    exact ⟨r, hr, h1, h2⟩
  · rintro ⟨r, hr, h1, h2⟩
    obtain ⟨a, ha, hs, hy⟩ := mem_annual_iff.mpr
      ⟨_, List.mem_map_of_mem (fun r => { r with state := normName r.state }) hr, h1, h2⟩
    exact ⟨_, ⟨a, ha, rfl⟩, hs, hy⟩

theorem mem_healthStates_iff {aqi_df : List AqiRow} {target_year : Int}
    {cf_aqi : ℚ} {s : String} :
    s ∈ healthStates aqi_df target_year cf_aqi ↔
      ∃ r ∈ aqi_df, normName r.state = s ∧ r.date.year = target_year := by
  rw [healthStates, dedupFirst_mem]
  simp only [List.mem_map, List.mem_filter, beq_iff_eq]
  constructor
  · rintro ⟨a, ⟨ha, hy⟩, rfl⟩
    exact mem_health_aqi_ann_iff.mp ⟨a, ha, rfl, hy⟩
  · intro h
    obtain ⟨a, ha, hs, hy⟩ := mem_health_aqi_ann_iff.mpr h
    exact ⟨a, ⟨ha, hy⟩, hs⟩

theorem healthStates_length_eq (aqi_df : List AqiRow) (target_year : Int)
    (cf_aqi : ℚ) :
    (healthStates aqi_df target_year cf_aqi).length =
      (dedupFirst ((aqi_df.filter (fun r => r.date.year == target_year)).map
        (fun r => normName r.state))).length := by
  refine List.Perm.length_eq ((List.perm_ext_iff_of_nodup
    (dedupFirst_nodup _) (dedupFirst_nodup _)).mpr (fun s => ?_))
  show s ∈ healthStates aqi_df target_year cf_aqi ↔ _
  rw [mem_healthStates_iff, dedupFirst_mem]
  simp only [List.mem_map, List.mem_filter, beq_iff_eq]
  constructor
  · rintro ⟨r, hr, hs, hy⟩
    exact ⟨r, ⟨hr, hy⟩, hs⟩
  · rintro ⟨r, ⟨hr, hy⟩, hs⟩
    exact ⟨r, hr, hs, hy⟩

/-! ### Exactly one row per (state, outcome) pair -/

theorem leftAqi_length_eq_one {aqi_target : List AqiDeltaRow} {s : String}
    (hnd : (aqi_target.map (·.state)).Nodup) (hex : ∃ a ∈ aqi_target, a.state = s) :
    (leftAqi aqi_target s).length = 1 := by
  rw [leftAqi]
  have hone := length_filter_eq_one_of_mem (fun a : AqiDeltaRow => a.state) hnd hex
  have hne : ¬ ((aqi_target.filter (fun a => a.state == s)).isEmpty = true) := by
    rw [List.isEmpty_iff]
    intro h0
    rw [h0] at hone
    simp at hone
  rw [if_neg hne, List.length_map]
  exact hone

theorem leftPop_length_eq_one {pop_year : List PopOut} {s : String}
    (hnd : (pop_year.map (·.state)).Nodup) :
    (leftPop pop_year s).length = 1 := by
  rw [leftPop]
  have hle := length_filter_le_one_of_nodup (fun p : PopOut => p.state) hnd s
  by_cases hpe : ((pop_year.filter (fun p => p.state == s)).isEmpty = true)
  · rw [if_pos hpe]; rfl
  · rw [if_neg hpe, List.length_map]
    rw [List.isEmpty_iff] at hpe
    have h1 : (pop_year.filter (fun p => p.state == s)).length ≠ 0 := by
      simpa [List.length_eq_zero] using hpe
    omega

/-- C5. The health-cost projection's output, before any caller-side
filtering, has exactly (number of distinct normalized states with AQI data in
the target year) × (number of outcome rows in the health-parameters table)
rows: both left joins match at most once — the annualized AQI has one row per
state, and the hypothesis states that the selected population rows carry
distinct state names — so the cross product's size is preserved. -/
theorem health_cross_product_size
    (hp_df : List HpRow) (pop_df : List PopRow) (hasMonth : Bool)
    (aqi_df : List AqiRow) (target_year : Int) (cf_aqi : ℚ)
    (hpop : ((get_population_by_year hasMonth pop_df target_year).map
      (·.state)).Nodup) :
    (compute_health_cost_impacts hp_df pop_df hasMonth aqi_df target_year cf_aqi).length =
      (dedupFirst ((aqi_df.filter (fun r => r.date.year == target_year)).map
        (fun r => normName r.state))).length * hp_df.length := by
  rw [compute_health_cost_impacts, List.length_map, ← healthStates_length_eq, comboRows]
  refine (length_flatMap_const _ _ 1 ?_).trans ?_
  · rintro ⟨s, hout⟩ hsh
    rw [List.mem_flatMap] at hsh
    obtain ⟨s', hs', hmem⟩ := hsh
    rw [List.mem_map] at hmem
    obtain ⟨h', -, heq⟩ := hmem
    have hss : s = s' := (Prod.ext_iff.mp heq.symm).1
    subst hss
    have hex : ∃ a ∈ (health_aqi_ann aqi_df cf_aqi).filter
        (fun r => r.year == target_year), a.state = s := by
      have := hs'
      rw [healthStates, dedupFirst_mem, List.mem_map] at this
      obtain ⟨a, ha, rfl⟩ := this
      exact ⟨a, ha, rfl⟩
    refine (length_flatMap_const _ _ 1 (fun ao _ => ?_)).trans ?_
    · rw [List.length_map]
      exact leftPop_length_eq_one hpop
    · rw [leftAqi_length_eq_one (health_target_states_nodup aqi_df cf_aqi target_year) hex,
        Nat.one_mul]
  · rw [Nat.mul_one]
    exact length_flatMap_const _ _ hp_df.length (fun s _ => List.length_map _ _)

/-! ### Claim C10: AQI columns are never null in the health output -/

theorem leftAqi_all_some {aqi_target : List AqiDeltaRow} {s : String}
    (hex : ∃ a ∈ aqi_target, a.state = s) :
    ∀ ao ∈ leftAqi aqi_target s, ao.isSome := by
  intro ao hao
  rw [leftAqi] at hao
  have hne : ¬ ((aqi_target.filter (fun a => a.state == s)).isEmpty = true) := by
    rw [List.isEmpty_iff, List.filter_eq_nil_iff]
    obtain ⟨a, ha, rfl⟩ := hex
    intro h
    exact (h a ha) (by simp)
  rw [if_neg hne, List.mem_map] at hao
  obtain ⟨a, -, rfl⟩ := hao
  rfl

theorem comboRows_aqi_fields_some
    {hp_df : List HpRow} {pop_df : List PopRow} {hasMonth : Bool}
    {aqi_df : List AqiRow} {target_year : Int} {cf_aqi : ℚ} {c : ComboRow}
    (hc : c ∈ comboRows hp_df pop_df hasMonth aqi_df target_year cf_aqi) :
    c.avg_aqi.isSome ∧ c.delta_aqi.isSome := by
  rw [comboRows] at hc
  simp only [List.mem_flatMap, List.mem_map] at hc
  obtain ⟨sh, hsh, ao, hao, po, hpo, rfl⟩ := hc
  obtain ⟨s', hs', hmem⟩ := hsh
  obtain ⟨h', -, heq⟩ := hmem
  have hss : sh.1 = s' := by rw [← heq]
  have hex : ∃ a ∈ (health_aqi_ann aqi_df cf_aqi).filter
      (fun r => r.year == target_year), a.state = sh.1 := by
    rw [hss]
    have := hs'
    rw [healthStates, dedupFirst_mem, List.mem_map] at this
    obtain ⟨a, ha, rfl⟩ := this
    exact ⟨a, ha, rfl⟩
  have hsome := leftAqi_all_some hex ao hao
  obtain ⟨a, rfl⟩ := Option.isSome_iff_exists.mp hsome
  exact ⟨rfl, rfl⟩

/-- C10 (amended). In every row of the health-cost projection output,
`avg_aqi` and `delta_aqi` are non-null: the cross product's state column is
drawn from exactly the states having AQI data for the target year, so the
left join onto the AQI table always matches.  For rows whose `rr_per_10ug`
is positive — the data-quality precondition the pipeline assumes of the
reference table — the derived `rr_total`, `paf` and `attr_rate` are likewise
non-null, and `attr_cases` and the `cost_*_total` columns are null exactly
when `population` is null.  (For a non-positive coefficient the float power
can be NaN, nulling every derived column even with population present.) -/
theorem health_output_nonnull_aqi_fields
    (hp_df : List HpRow) (pop_df : List PopRow) (hasMonth : Bool)
    (aqi_df : List AqiRow) (target_year : Int) (cf_aqi : ℚ) (row : HealthRow)
    (hrow : row ∈ compute_health_cost_impacts hp_df pop_df hasMonth aqi_df
      target_year cf_aqi) :
    row.avg_aqi.isSome ∧ row.delta_aqi.isSome ∧
    (0 < row.rr_per_10ug →
      row.rr_total ≠ FVal.nan ∧ row.paf ≠ FVal.nan ∧ row.attr_rate ≠ FVal.nan ∧
      (row.attr_cases ≠ FVal.nan ↔ row.population.isSome) ∧
      (row.cost_min_total ≠ FVal.nan ↔ row.population.isSome) ∧
      (row.cost_mean_total ≠ FVal.nan ↔ row.population.isSome) ∧
      (row.cost_max_total ≠ FVal.nan ↔ row.population.isSome)) := by
  rw [compute_health_cost_impacts, List.mem_map] at hrow
  obtain ⟨c, hc, rfl⟩ := hrow
  obtain ⟨havg, hdelta⟩ := comboRows_aqi_fields_some hc
  obtain ⟨d, hd⟩ := Option.isSome_iff_exists.mp hdelta
  refine ⟨havg, hdelta, fun hrr => ?_⟩
  have hrr' : 0 < c.rr_per_10ug := hrr
  have hrteq : (enrichRow c).rr_total =
      FVal.fin ((c.rr_per_10ug : ℝ) ^ (((d / 10 : ℚ)) : ℝ)) := by
    have h : (enrichRow c).rr_total =
        fpowOpt c.rr_per_10ug (c.delta_aqi.map (fun (q : ℚ) => q / 10)) := rfl
    rw [h, hd, Option.map_some']
    show fpow c.rr_per_10ug (d / 10) = _
    rw [fpow, if_pos hrr']
  have ht : (0 : ℝ) < (c.rr_per_10ug : ℝ) ^ (((d / 10 : ℚ)) : ℝ) :=
    Real.rpow_pos_of_pos (by exact_mod_cast hrr') _
  have hpafeq : (enrichRow c).paf =
      FVal.fin ((((c.rr_per_10ug : ℝ) ^ (((d / 10 : ℚ)) : ℝ)) - 1) /
        ((c.rr_per_10ug : ℝ) ^ (((d / 10 : ℚ)) : ℝ))) := by
    have h : (enrichRow c).paf = pafOf ((enrichRow c).rr_total) := rfl
    rw [h, hrteq, pafOf, if_neg (ne_of_gt ht)]
  have hareq : (enrichRow c).attr_rate = FVal.fin
      (((((c.rr_per_10ug : ℝ) ^ (((d / 10 : ℚ)) : ℝ)) - 1) /
        ((c.rr_per_10ug : ℝ) ^ (((d / 10 : ℚ)) : ℝ))) *
          (c.baseline_incidence : ℝ)) := by
    have h : (enrichRow c).attr_rate =
        fmulQ ((enrichRow c).paf) c.baseline_incidence := rfl
    rw [h, hpafeq]
    rfl
  have hac : (enrichRow c).attr_cases = (match c.population with
      | none => FVal.nan
      | some q => fdivPos (fmulQ ((enrichRow c).attr_rate) q) 100000) := rfl
  have hpop_eq : (enrichRow c).population = c.population := rfl
  cases hpople : c.population with
  | none =>
      have hacn : (enrichRow c).attr_cases = FVal.nan := by rw [hac, hpople]
      have hcost : ∀ b : ℚ, fmulQ ((enrichRow c).attr_cases) b = FVal.nan := by
        intro b
        rw [hacn]
        rfl
      refine ⟨by rw [hrteq]; simp, by rw [hpafeq]; simp, by rw [hareq]; simp,
        ?_, ?_, ?_, ?_⟩ <;>
        rw [hpop_eq, hpople]
      · simp [hacn]
      · show fmulQ ((enrichRow c).attr_cases) c.cost_min ≠ FVal.nan ↔ _
        simp [hcost]
      · show fmulQ ((enrichRow c).attr_cases) c.cost_mean ≠ FVal.nan ↔ _
        simp [hcost]
      · show fmulQ ((enrichRow c).attr_cases) c.cost_max ≠ FVal.nan ↔ _
        simp [hcost]
  | some p =>
      have hacf : (enrichRow c).attr_cases = FVal.fin
          ((((((c.rr_per_10ug : ℝ) ^ (((d / 10 : ℚ)) : ℝ)) - 1) /
            ((c.rr_per_10ug : ℝ) ^ (((d / 10 : ℚ)) : ℝ))) *
              (c.baseline_incidence : ℝ)) * (p : ℝ) / ((100000 : ℚ) : ℝ)) := by
        rw [hac, hpople]
        show fdivPos (fmulQ ((enrichRow c).attr_rate) p) 100000 = _
        rw [hareq]
        rfl
      refine ⟨by rw [hrteq]; simp, by rw [hpafeq]; simp, by rw [hareq]; simp,
        ?_, ?_, ?_, ?_⟩ <;>
        rw [hpop_eq, hpople]
      · simp [hacf]
      · show fmulQ ((enrichRow c).attr_cases) c.cost_min ≠ FVal.nan ↔ _
        rw [hacf]
        simp [fmulQ]
      · show fmulQ ((enrichRow c).attr_cases) c.cost_mean ≠ FVal.nan ↔ _
        rw [hacf]
        simp [fmulQ]
      · show fmulQ ((enrichRow c).attr_cases) c.cost_max ≠ FVal.nan ↔ _
        rw [hacf]
        simp [fmulQ]

/-! ### Claim C2: zero AQI delta means unit relative risk and zero
attribution -/

/-- C2. For every (state, outcome) row of the health-cost grid with
`delta_aqi = 0` (average AQI equal to the counterfactual baseline) and
positive `rr_per_10ug`, the derived columns satisfy `rr_total = 1`,
`paf = 0`, and — whenever the row's population is present —
`attr_cases = 0`. -/
theorem zero_delta_zero_attribution
    (hp_df : List HpRow) (pop_df : List PopRow) (hasMonth : Bool)
    (aqi_df : List AqiRow) (target_year : Int) (cf_aqi : ℚ) (c : ComboRow)
    (_hc : c ∈ comboRows hp_df pop_df hasMonth aqi_df target_year cf_aqi)
    (hδ : c.delta_aqi = some 0) (hrr : 0 < c.rr_per_10ug) :
    (enrichRow c).rr_total = FVal.fin 1 ∧ (enrichRow c).paf = FVal.fin 0 ∧
    ∀ p, c.population = some p → (enrichRow c).attr_cases = FVal.fin 0 := by
  have hrt : (enrichRow c).rr_total = FVal.fin 1 := by
    have h : (enrichRow c).rr_total =
        fpowOpt c.rr_per_10ug (c.delta_aqi.map (fun (d : ℚ) => d / 10)) := rfl
    rw [h, hδ, Option.map_some']
    show fpow c.rr_per_10ug (0 / 10) = FVal.fin 1
    rw [fpow, if_pos hrr]
    norm_num
  have hpaf : (enrichRow c).paf = FVal.fin 0 := by
    have h : (enrichRow c).paf = pafOf ((enrichRow c).rr_total) := rfl
    rw [h, hrt, pafOf]
    norm_num
  refine ⟨hrt, hpaf, ?_⟩
  intro p hp
  have har : (enrichRow c).attr_rate = FVal.fin 0 := by
    have h : (enrichRow c).attr_rate =
        fmulQ ((enrichRow c).paf) c.baseline_incidence := rfl
    rw [h, hpaf, fmulQ]
    norm_num
  have h : (enrichRow c).attr_cases = (match c.population with
      | none => FVal.nan
      | some q => fdivPos (fmulQ ((enrichRow c).attr_rate) q) 100000) := rfl
  rw [h, hp]
  show fdivPos (fmulQ ((enrichRow c).attr_rate) p) 100000 = FVal.fin 0
  rw [har, fmulQ]
  norm_num [fdivPos]

/-! Concrete input for the health-pipeline witnesses: one state whose average
AQI equals the counterfactual baseline 35, one outcome, one population row. -/

/-- Health witness AQI table: a single reading of 35 in 2024. -/
def hAqi : List AqiRow := [⟨⟨1, 1, 2024⟩, "a", "x", 35⟩]

/-- Health witness reference table: one outcome with `rr_per_10ug = 3/2`. -/
def hHp : List HpRow := [⟨"copd", 3/2, 5, 10, 20, 30⟩]

/-- Health witness population table. -/
def hPop : List PopRow := [⟨"a", 2024, none, 1000⟩]

/-- The single grid row the health pipeline computes on the witness input:
`avg_aqi = 35`, `delta_aqi = 0` (counterfactual 35), population present. -/
def hCombo : ComboRow :=
  ⟨"a", "copd", 3/2, 5, 10, 20, 30, some 35, some 0, some 1000⟩

/-- Evaluation of the health-cost grid on the witness input. -/
theorem hCombo_eval : comboRows hHp hPop false hAqi 2024 35 = [hCombo] := by
  have na : normName "a" = "a" := by decide
  have e3 : ("a" == "a") = true := by decide
  norm_num [comboRows, healthStates, health_aqi_ann, annual_state_aqi_calendar,
    hAqi, hHp, hPop, hCombo, dedupFirst, dedupFirstAux, keyLE,
    List.insertionSort, List.orderedInsert, colMean, get_population_by_year,
    leftAqi, leftPop, na, e3, List.filter]

/-- Witness for C2: on the concrete input the single grid row has
`delta_aqi = some 0`, `rr_per_10ug = 3/2 > 0` and population present, and the
derived columns are `rr_total = 1`, `paf = 0`, `attr_cases = 0`. -/
theorem zero_delta_zero_attribution_witness :
    (enrichRow hCombo).rr_total = FVal.fin 1 ∧ (enrichRow hCombo).paf = FVal.fin 0 ∧
    ∀ p, hCombo.population = some p → (enrichRow hCombo).attr_cases = FVal.fin 0 :=
  zero_delta_zero_attribution hHp hPop false hAqi 2024 35 hCombo
    (by rw [hCombo_eval]; exact List.mem_cons_self _ _)
    (by rw [hCombo]) (by rw [hCombo]; norm_num)

/-- The grid row the health pipeline computes when the population table is
empty: AQI columns present, population null. -/
def hComboNoPop : ComboRow :=
  ⟨"a", "copd", 3/2, 5, 10, 20, 30, some 35, some 0, none⟩

/-- Counterexample to C2 as stated.  On an input whose population table is
empty, the single grid row satisfies the claim's premises — `delta_aqi = 0`
and `rr_per_10ug > 0` — and indeed gets `rr_total = 1` and `paf = 0`, but its
`attr_cases` is NaN (pandas: `0 * NaN = NaN`), not the number 0: the
`attr_cases = 0` conjunct fails for rows with missing population. -/
theorem zero_delta_attr_cases_counterexample :
    comboRows hHp [] false hAqi 2024 35 = [hComboNoPop] ∧
    hComboNoPop.delta_aqi = some 0 ∧ 0 < hComboNoPop.rr_per_10ug ∧
    (enrichRow hComboNoPop).attr_cases = FVal.nan := by
  refine ⟨?_, rfl, by norm_num [hComboNoPop], rfl⟩
  have na : normName "a" = "a" := by decide
  have e3 : ("a" == "a") = true := by decide
  norm_num [comboRows, healthStates, health_aqi_ann, annual_state_aqi_calendar,
    hAqi, hHp, hComboNoPop, dedupFirst, dedupFirstAux, keyLE,
    List.insertionSort, List.orderedInsert, colMean, get_population_by_year,
    leftAqi, leftPop, na, e3, List.filter]

/-- Witness for C5: on the concrete input the output has exactly
1 state × 1 outcome = 1 row; the population-distinctness hypothesis is
discharged by evaluation. -/
theorem health_cross_product_size_witness :
    (compute_health_cost_impacts hHp hPop false hAqi 2024 35).length = 1 := by
  have na : normName "a" = "a" := by decide
  have hpopeval : get_population_by_year false hPop 2024 = [⟨"a", 1000⟩] := by
    norm_num [get_population_by_year, hPop, na, List.filter]
  have h := health_cross_product_size hHp hPop false hAqi 2024 35
    (by rw [hpopeval]; simp)
  rw [h]
  norm_num [hAqi, hHp, dedupFirst, dedupFirstAux, na, List.filter]

/-- AQI table for the negative-coefficient counterexample: a single reading
of 40 in 2024, so the state's `delta_aqi` against the counterfactual 35 is 5
and the float exponent `delta_aqi / 10` is the non-integer 1/2. -/
def c10Aqi : List AqiRow := [⟨⟨1, 1, 2024⟩, "a", "x", 40⟩]

/-- Reference table carrying the unvalidated non-positive coefficient
`rr_per_10ug = -2`. -/
def c10Hp : List HpRow := [⟨"copd", -2, 5, 10, 20, 30⟩]

/-- The grid row of the negative-coefficient input: AQI columns and
population all present. -/
def c10Combo : ComboRow :=
  ⟨"a", "copd", -2, 5, 10, 20, 30, some 40, some 5, some 1000⟩

/-- Counterexample to C10 as stated.  With the unvalidated coefficient
`rr_per_10ug = -2` and `delta_aqi = 5`, the float power
`(-2) ** (5/10)` is NaN (negative base, non-integer exponent), so
`rr_total`, `paf`, `attr_rate` are null, and `attr_cases` and the cost
totals are null even though the row's population is present: nullness is not
confined to `population` and the columns derived from it. -/
theorem negative_rr_nan_counterexample :
    comboRows c10Hp hPop false c10Aqi 2024 35 = [c10Combo] ∧
    c10Combo.population.isSome ∧
    (enrichRow c10Combo).rr_total = FVal.nan ∧
    (enrichRow c10Combo).paf = FVal.nan ∧
    (enrichRow c10Combo).attr_rate = FVal.nan ∧
    (enrichRow c10Combo).attr_cases = FVal.nan ∧
    (enrichRow c10Combo).cost_mean_total = FVal.nan := by
  have hrt : (enrichRow c10Combo).rr_total = FVal.nan := by
    have h : (enrichRow c10Combo).rr_total =
        fpowOpt c10Combo.rr_per_10ug (c10Combo.delta_aqi.map (fun (q : ℚ) => q / 10)) := rfl
    rw [h]
    show fpow (-2) (5 / 10) = FVal.nan
    rw [fpow]
    norm_num
  have hpaf : (enrichRow c10Combo).paf = FVal.nan := by
    have h : (enrichRow c10Combo).paf = pafOf ((enrichRow c10Combo).rr_total) := rfl
    rw [h, hrt]
    rfl
  have har : (enrichRow c10Combo).attr_rate = FVal.nan := by
    have h : (enrichRow c10Combo).attr_rate =
        fmulQ ((enrichRow c10Combo).paf) c10Combo.baseline_incidence := rfl
    rw [h, hpaf]
    rfl
  have hac : (enrichRow c10Combo).attr_cases = FVal.nan := by
    have h : (enrichRow c10Combo).attr_cases = (match c10Combo.population with
        | none => FVal.nan
        | some q => fdivPos (fmulQ ((enrichRow c10Combo).attr_rate) q) 100000) := rfl
    rw [h]
    show fdivPos (fmulQ ((enrichRow c10Combo).attr_rate) 1000) 100000 = FVal.nan
    rw [har]
    rfl
  have hcm : (enrichRow c10Combo).cost_mean_total = FVal.nan := by
    have h : (enrichRow c10Combo).cost_mean_total =
        fmulQ ((enrichRow c10Combo).attr_cases) c10Combo.cost_mean := rfl
    rw [h, hac]
    rfl
  refine ⟨?_, rfl, hrt, hpaf, har, hac, hcm⟩
  have na : normName "a" = "a" := by decide
  have e3 : ("a" == "a") = true := by decide
  norm_num [comboRows, healthStates, health_aqi_ann, annual_state_aqi_calendar,
    c10Aqi, c10Hp, c10Combo, hPop, dedupFirst, dedupFirstAux, keyLE,
    List.insertionSort, List.orderedInsert, colMean, get_population_by_year,
    leftAqi, leftPop, na, e3, List.filter]

/-- Witness for C10 (amended): the single output row of the concrete input
has a positive coefficient (3/2), its AQI-derived columns are non-null, and
its population-derived columns are non-null as well (its population is
present). -/
theorem health_output_nonnull_witness :
    0 < (enrichRow hCombo).rr_per_10ug ∧
    ((enrichRow hCombo).avg_aqi.isSome ∧ (enrichRow hCombo).delta_aqi.isSome ∧
     (0 < (enrichRow hCombo).rr_per_10ug →
       (enrichRow hCombo).rr_total ≠ FVal.nan ∧
       (enrichRow hCombo).paf ≠ FVal.nan ∧
       (enrichRow hCombo).attr_rate ≠ FVal.nan ∧
       ((enrichRow hCombo).attr_cases ≠ FVal.nan ↔
         (enrichRow hCombo).population.isSome) ∧
       ((enrichRow hCombo).cost_min_total ≠ FVal.nan ↔
         (enrichRow hCombo).population.isSome) ∧
       ((enrichRow hCombo).cost_mean_total ≠ FVal.nan ↔
         (enrichRow hCombo).population.isSome) ∧
       ((enrichRow hCombo).cost_max_total ≠ FVal.nan ↔
         (enrichRow hCombo).population.isSome))) :=
  ⟨show (0 : ℚ) < 3/2 by norm_num,
   health_output_nonnull_aqi_fields hHp hPop false hAqi 2024 35 (enrichRow hCombo)
     (by rw [compute_health_cost_impacts, hCombo_eval]; simp)⟩

end AQDash
